import Mathlib

/-!
Verification development for the reactfpv repository.

The pure numeric utilities (axis normalization, Betaflight-style rate
curve, HID report decoding, preset application) are embedded over `ℚ`,
mirroring the TypeScript sources statement by statement.  The flight
physics engine (`src/services/dronePhysics.ts`) is embedded twice:

* an ideal real-number model (`DP` namespace) over `ℝ`, in which every
  value is finite — this is the semantics the spec's hover / clamp /
  invariant properties are about;
* a NaN-tracking model (`DPN` namespace) over `Option ℝ`, where `none`
  plays the role of IEEE `NaN` (any arithmetic involving `none` yields
  `none`, comparisons with `none` are false, `isNaN` is `Option.isNone`) —
  this is the semantics the NaN-safety property is about.

Both models are translated directly from the source; vendored three.js
vector/quaternion operations used by the engine (`add`, `sub`,
`multiplyScalar`, `divideScalar`, `length`, `normalize`,
`applyQuaternion`, `setFromAxisAngle`, quaternion `multiply` and
`normalize`) are embedded from their three.js definitions, including the
`length() || 1` guard in `Vector3.normalize` and the zero-length guard in
`Quaternion.normalize`.
-/

/-! ## Numeric/Input utilities (src/unnamed/part_000, src/services/physics.ts) -/

/-- Math.max on rationals (finite arguments). -/
def jmax (a b : ℚ) : ℚ := if a < b then b else a

/-- Math.min on rationals (finite arguments). -/
def jmin (a b : ℚ) : ℚ := if b < a then b else a

/-- Math.abs on rationals (finite arguments). -/
def jabs (a : ℚ) : ℚ := if a < 0 then -a else a

/-- AxisCalibration record from src/types.ts. -/
structure AxisCalibration where
  min : ℚ
  max : ℚ
  center : ℚ
  inverted : Bool

/-- normalizeInput from src/unnamed/part_000: piecewise-linear map of a raw
axis value against a calibration, forcing `center` to 0, with degenerate
half-span guards and a final clamp to [-1, 1], then optional inversion. -/
def normalizeInput (raw : ℚ) (calibration : AxisCalibration) : ℚ :=
  let value := raw
  let normalized : ℚ :=
    if value > calibration.center then
      if jabs (calibration.max - calibration.center) < 1/1000 then 0
      else (value - calibration.center) / (calibration.max - calibration.center)
    else
      if jabs (calibration.center - calibration.min) < 1/1000 then 0
      else -(calibration.center - value) / (calibration.center - calibration.min)
  let clamped := jmax (-1) (jmin 1 normalized)
  if calibration.inverted then -clamped else clamped

/-- RateProfile record from src/types.ts. -/
structure RateProfile where
  rcRate : ℚ
  superRate : ℚ
  expo : ℚ

/-- calculateRate from src/services/physics.ts: Betaflight-style rate curve.
`Math.pow(absRcCommand, 3)` is the rational cube `|rcCommand|^3`. -/
def calculateRate (input : ℚ) (rateProfile : RateProfile) : ℚ :=
  let rcCommand := jmax (-1) (jmin 1 input)
  let absRcCommand := jabs rcCommand
  let rcCommandExp := rcCommand * absRcCommand ^ 3 * rateProfile.expo
    + rcCommand * (1 - rateProfile.expo)
  let SR := jmin rateProfile.superRate (99/100)
  let currentAngleRate := 200 * rateProfile.rcRate * rcCommandExp
  let rateEffect := 1 / (1 - jabs rcCommand * SR)
  currentAngleRate * rateEffect

/-! ## HID input-report decoding (src/unnamed/part_001) -/

namespace HID

/-- CHANNEL_MIN constant. -/
def CHANNEL_MIN : ℚ := 1000

/-- CHANNEL_MAX constant. -/
def CHANNEL_MAX : ℚ := 2000

/-- CHANNEL_MID constant. -/
def CHANNEL_MID : ℚ := 1500

/-- normalizeChannel: microseconds (1000-2000) to -1 .. 1. -/
def normalizeChannel (value : ℚ) : ℚ :=
  ((value - CHANNEL_MID) / (CHANNEL_MAX - CHANNEL_MID)) * 1

/-- A DataView is modelled as the list of its bytes (each < 256);
`getUint8 i` is `data.getD i 0` (all reads in the source are
bounds-guarded, so the default is never observed). -/
def getUint8 (data : List ℕ) (i : ℕ) : ℕ := data.getD i 0

/-- getUint16 with littleEndian = true: low byte first. -/
def getUint16LE (data : List ℕ) (i : ℕ) : ℕ :=
  getUint8 data i + 256 * getUint8 data (i + 1)

/-- parseUSBJoystick from src/unnamed/part_001 lines 162-214.  The
`channels` array starts as eight zeros; the 19-byte branch first fills it
from 16-bit LE reads at offset 3 (stride 2), accepts that decoding if any
channel magnitude exceeds 0.01, and otherwise overwrites the slots from
single bytes at offsets [4,6,7,8,10,11,12,13]; any report of length ≥ 9
takes the generic branch reading bytes 1-8; shorter reports yield null. -/
def parseUSBJoystick (data : List ℕ) : Option (List ℚ) :=
  let channels : List ℚ := List.replicate 8 0
  if data.length = 19 then
    let channels := (List.range 8).foldl (fun acc i =>
      let offset := 3 + i * 2
      if offset + 1 < data.length then
        acc.set i ((getUint16LE data offset : ℚ) / (255/2) - 1)
      else acc) channels
    let hasMovement := channels.any (fun ch => jabs ch > 1/100)
    if hasMovement then
      some channels
    else
      let axisBytes : List ℕ := [4, 6, 7, 8, 10, 11, 12, 13]
      some ((List.range 8).foldl (fun acc i =>
        let byteIdx := axisBytes.getD i 0
        if byteIdx < data.length then
          acc.set i ((getUint8 data byteIdx : ℚ) / (255/2) - 1)
        else acc) channels)
  else if 9 ≤ data.length then
    some ((List.range 8).foldl (fun acc i =>
      acc.set i ((getUint8 data (i + 1) : ℚ) / (255/2) - 1)) channels)
  else
    none

/-- parseAs8Bit: reads up to 8 bytes from the start and normalizes
0-255 to -1 .. 1. -/
def parseAs8Bit (data : List ℕ) : List ℚ :=
  ((List.range (min 8 data.length)).map (fun i => (getUint8 data i : ℚ))).map
    (fun ch => ch / (255/2) - 1)

/-- handleInputReport from src/unnamed/part_001 lines 121-157 (the parsing
cascade; the debug-log side channel has no effect on the published
channels).  `rawChannels` is the service's current channel array; the
result is the array the listeners are notified with.  The 16-bit loop
bound `i < Math.min(8, byteLength / 2)` over integers is
`min 8 ((byteLength + 1) / 2)` iterations. -/
def handleInputReport (rawChannels : List ℚ) (data : List ℕ) : List ℚ :=
  let strategy1 : Option (List ℚ) :=
    if data.length = 19 ∨ 11 ≤ data.length then parseUSBJoystick data else none
  match strategy1 with
  | some channels => channels
  | none =>
    if 16 ≤ data.length then
      let channels := (List.range (min 8 ((data.length + 1) / 2))).map
        (fun i => (getUint16LE data (i * 2) : ℚ))
      if channels.all (fun ch => 900 ≤ ch ∧ ch ≤ 2100) then
        channels.map normalizeChannel
      else if 4 ≤ data.length then parseAs8Bit data else rawChannels
    else if 4 ≤ data.length then parseAs8Bit data else rawChannels

end HID

/-! ## Drone physics presets and the Settings Panel preset logic
(src/constants.ts, src/unnamed/part_006) -/

/-- DronePresetType from src/types.ts. -/
inductive DronePresetType where
  | WHOOP_65MM
  | WHOOP_75MM
  | TOOTHPICK_3IN
  | FREESTYLE_5IN
  | RACE_5IN
  | CINEWHOOP
  | LONG_RANGE_7IN
  | X_CLASS_10IN
  | CUSTOM
deriving DecidableEq

/-- DronePhysicsSettings from src/types.ts. -/
structure DronePhysicsSettings where
  preset : DronePresetType
  mass : ℚ
  maxThrust : ℚ
  dragCoefficient : ℚ
  angularDrag : ℚ
  responsiveness : ℚ
deriving DecidableEq

/-- The numeric bundle of a preset (DronePhysicsSettings minus preset). -/
structure PresetValues where
  mass : ℚ
  maxThrust : ℚ
  dragCoefficient : ℚ
  angularDrag : ℚ
  responsiveness : ℚ

/-- DRONE_PRESETS table from src/constants.ts lines 78-142. -/
def DRONE_PRESETS : DronePresetType → PresetValues
  | .WHOOP_65MM => ⟨1/40, 3/20, 4/5, 5, 8⟩
  | .WHOOP_75MM => ⟨7/200, 1/4, 9/10, 9/2, 9⟩
  | .TOOTHPICK_3IN => ⟨2/25, 6/5, 3/5, 7/2, 12⟩
  | .FREESTYLE_5IN => ⟨13/20, 9/2, 1, 3, 12⟩
  | .RACE_5IN => ⟨9/20, 11/2, 4/5, 2, 18⟩
  | .CINEWHOOP => ⟨7/20, 5/2, 3/2, 4, 8⟩
  | .LONG_RANGE_7IN => ⟨9/10, 6, 9/10, 7/2, 10⟩
  | .X_CLASS_10IN => ⟨5/2, 15, 6/5, 4, 8⟩
  | .CUSTOM => ⟨13/20, 9/2, 1, 3, 12⟩

/-- Preset button onClick in the Settings Panel (src/unnamed/part_006
lines 653-663): `setDronePhysics({ preset, ...DRONE_PRESETS[preset] })`. -/
def selectPreset (preset : DronePresetType) : DronePhysicsSettings :=
  { preset := preset
    mass := (DRONE_PRESETS preset).mass
    maxThrust := (DRONE_PRESETS preset).maxThrust
    dragCoefficient := (DRONE_PRESETS preset).dragCoefficient
    angularDrag := (DRONE_PRESETS preset).angularDrag
    responsiveness := (DRONE_PRESETS preset).responsiveness }

/-- Mass slider onChange: `{ ...dronePhysics, preset: 'CUSTOM', mass: v }`. -/
def setMass (s : DronePhysicsSettings) (v : ℚ) : DronePhysicsSettings :=
  { s with preset := .CUSTOM, mass := v }

/-- Max-thrust slider onChange. -/
def setMaxThrust (s : DronePhysicsSettings) (v : ℚ) : DronePhysicsSettings :=
  { s with preset := .CUSTOM, maxThrust := v }

/-- Responsiveness slider onChange. -/
def setResponsiveness (s : DronePhysicsSettings) (v : ℚ) : DronePhysicsSettings :=
  { s with preset := .CUSTOM, responsiveness := v }

/-- Angular-drag slider onChange. -/
def setAngularDrag (s : DronePhysicsSettings) (v : ℚ) : DronePhysicsSettings :=
  { s with preset := .CUSTOM, angularDrag := v }

/-- Drag-coefficient slider onChange. -/
def setDragCoefficient (s : DronePhysicsSettings) (v : ℚ) : DronePhysicsSettings :=
  { s with preset := .CUSTOM, dragCoefficient := v }

/-! ## Flight physics engine, ideal real-number model
(src/services/dronePhysics.ts).  Every value is a finite real; the
engine's final NaN guard (`isNaN(newPosition.x) || isNaN(newVelocity.x)
|| isNaN(newQuaternion.x)`) can never fire in this model and is treated
in the DPN NaN-tracking model below. -/

noncomputable section

namespace DP

open scoped Classical

/-- GRAVITY physical constant. -/
def GRAVITY : ℝ := 9.81

/-- AIR_DENSITY physical constant. -/
def AIR_DENSITY : ℝ := 1.225

/-- three.js Vector3 over the reals. -/
structure Vec3 where
  x : ℝ
  y : ℝ
  z : ℝ

/-- Vector3.add. -/
def Vec3.add (a b : Vec3) : Vec3 := ⟨a.x + b.x, a.y + b.y, a.z + b.z⟩

/-- Vector3.sub. -/
def Vec3.sub (a b : Vec3) : Vec3 := ⟨a.x - b.x, a.y - b.y, a.z - b.z⟩

/-- Vector3.multiplyScalar. -/
def Vec3.multiplyScalar (v : Vec3) (s : ℝ) : Vec3 := ⟨v.x * s, v.y * s, v.z * s⟩

/-- Vector3.divideScalar: `multiplyScalar(1 / scalar)`. -/
def Vec3.divideScalar (v : Vec3) (s : ℝ) : Vec3 := v.multiplyScalar (1 / s)

/-- Vector3.length: `sqrt(x*x + y*y + z*z)`. -/
def Vec3.length (v : Vec3) : ℝ := Real.sqrt (v.x * v.x + v.y * v.y + v.z * v.z)

/-- Vector3.normalize: `divideScalar(length() || 1)` — a zero length is
replaced by 1 (over the reals the length is never NaN). -/
def Vec3.normalize (v : Vec3) : Vec3 :=
  v.divideScalar (if v.length = 0 then 1 else v.length)

/-- Vector3.addScaledVector. -/
def Vec3.addScaledVector (a b : Vec3) (s : ℝ) : Vec3 := a.add (b.multiplyScalar s)

/-- Dot product (used only by the verification lemmas, not by the engine). -/
def Vec3.dot (a b : Vec3) : ℝ := a.x * b.x + a.y * b.y + a.z * b.z

/-- three.js Quaternion over the reals; the default constructor is the
identity (0, 0, 0, 1). -/
structure Quat where
  x : ℝ
  y : ℝ
  z : ℝ
  w : ℝ

/-- Quaternion.length. -/
def Quat.length (q : Quat) : ℝ :=
  Real.sqrt (q.x * q.x + q.y * q.y + q.z * q.z + q.w * q.w)

/-- Quaternion.normalize: identity when the length is 0, otherwise scale
by the reciprocal length. -/
def Quat.normalize (q : Quat) : Quat :=
  if q.length = 0 then ⟨0, 0, 0, 1⟩
  else
    let l := 1 / q.length
    ⟨q.x * l, q.y * l, q.z * l, q.w * l⟩

/-- Quaternion.multiply (Hamilton product, three.js component order). -/
def Quat.multiply (a b : Quat) : Quat :=
  ⟨a.x * b.w + a.w * b.x + a.y * b.z - a.z * b.y,
   a.y * b.w + a.w * b.y + a.z * b.x - a.x * b.z,
   a.z * b.w + a.w * b.z + a.x * b.y - a.y * b.x,
   a.w * b.w - a.x * b.x - a.y * b.y - a.z * b.z⟩

/-- Quaternion.setFromAxisAngle (axis assumed normalized). -/
def Quat.setFromAxisAngle (axis : Vec3) (angle : ℝ) : Quat :=
  let halfAngle := angle / 2
  let s := Real.sin halfAngle
  ⟨axis.x * s, axis.y * s, axis.z * s, Real.cos halfAngle⟩

/-- Vector3.applyQuaternion. -/
def Vec3.applyQuaternion (v : Vec3) (q : Quat) : Vec3 :=
  let tx := 2 * (q.y * v.z - q.z * v.y)
  let ty := 2 * (q.z * v.x - q.x * v.z)
  let tz := 2 * (q.x * v.y - q.y * v.x)
  ⟨v.x + q.w * tx + q.y * tz - q.z * ty,
   v.y + q.w * ty + q.z * tx - q.x * tz,
   v.z + q.w * tz + q.x * ty - q.y * tx⟩

/-- DroneSpecs record. -/
structure DroneSpecs where
  mass : ℝ
  maxThrust : ℝ
  dragCoefficient : ℝ
  frontalArea : ℝ
  angularDrag : ℝ
  responsiveness : ℝ

/-- DEFAULT_DRONE_SPECS. -/
def DEFAULT_DRONE_SPECS : DroneSpecs :=
  { mass := 0.65
    maxThrust := 4.5
    dragCoefficient := 1.0
    frontalArea := 0.01
    angularDrag := 3.0
    responsiveness := 12 }

/-- WindConfig record. -/
structure WindConfig where
  enabled : Bool
  baseSpeed : ℝ
  direction : Vec3
  gustStrength : ℝ
  gustFrequency : ℝ
  turbulenceScale : ℝ

/-- DEFAULT_WIND_CONFIG. -/
def DEFAULT_WIND_CONFIG : WindConfig :=
  { enabled := false
    baseSpeed := 0
    direction := ⟨1, 0, 0⟩
    gustStrength := 0
    gustFrequency := 0.5
    turbulenceScale := 0 }

/-- A `Partial<WindConfig>` argument: each field is present or absent. -/
structure WindConfigPatch where
  enabled : Option Bool
  baseSpeed : Option ℝ
  direction : Option Vec3
  gustStrength : Option ℝ
  gustFrequency : Option ℝ
  turbulenceScale : Option ℝ

/-- The all-absent patch. -/
def WindConfigPatch.empty : WindConfigPatch := ⟨none, none, none, none, none, none⟩

/-- updateWindConfig (src/services/dronePhysics.ts lines 120-125): if the
patch carries a direction, the stored direction is first replaced by its
normalization; then `Object.assign(this.windConfig, config)` copies every
present patch field — including the raw, un-normalized `direction` —
over the stored config. -/
def updateWindConfig (wc : WindConfig) (config : WindConfigPatch) : WindConfig :=
  let wc1 := match config.direction with
    | some d => { wc with direction := d.normalize }
    | none => wc
  { enabled := config.enabled.getD wc1.enabled
    baseSpeed := config.baseSpeed.getD wc1.baseSpeed
    direction := config.direction.getD wc1.direction
    gustStrength := config.gustStrength.getD wc1.gustStrength
    gustFrequency := config.gustFrequency.getD wc1.gustFrequency
    turbulenceScale := config.turbulenceScale.getD wc1.turbulenceScale }

/-- PhysicsState record. -/
structure PhysicsState where
  position : Vec3
  velocity : Vec3
  quaternion : Quat
  angularVelocity : Vec3

/-- createInitialState: position defaults to (0, 2, 0), zero velocity and
angular velocity, identity orientation. -/
def createInitialState (position : Option Vec3) : PhysicsState :=
  { position := position.getD ⟨0, 2, 0⟩
    velocity := ⟨0, 0, 0⟩
    quaternion := ⟨0, 0, 0, 1⟩
    angularVelocity := ⟨0, 0, 0⟩ }

/-- calculateThrust: total linear-response thrust of the four motors. -/
def calculateThrust (specs : DroneSpecs) (throttle : ℝ) : ℝ :=
  let normalizedThrottle := max 0 (min 1 throttle)
  4 * specs.maxThrust * normalizedThrottle

/-- calculateDrag: zero below 0.001 m/s relative speed, otherwise the
quadratic drag law opposing the relative velocity. -/
def calculateDrag (specs : DroneSpecs) (velocity airVelocity : Vec3) : Vec3 :=
  let rel := velocity.sub airVelocity
  let speed := rel.length
  if speed < 0.001 then ⟨0, 0, 0⟩
  else
    let dragMagnitude := 0.5 * AIR_DENSITY * speed * speed *
      specs.dragCoefficient * specs.frontalArea
    (rel.normalize).multiplyScalar (-dragMagnitude)

/-- calculateWindVelocity.  `gustPhase` is the engine's accumulator; the
source advances it by `gustFrequency * 0.016` before sampling the gust,
so the advanced value appears in the gust factor here. -/
def calculateWindVelocity (wc : WindConfig) (gustPhase time : ℝ)
    (position : Vec3) : Vec3 :=
  if !wc.enabled then ⟨0, 0, 0⟩
  else
    let base := wc.direction.multiplyScalar wc.baseSpeed
    let withGust :=
      if wc.gustStrength > 0 then
        let phase := gustPhase + wc.gustFrequency * 0.016
        let gustFactor := max 0 (Real.sin (phase * Real.pi * 2) *
          Real.sin (phase * Real.pi * 0.7))
        base.add (wc.direction.multiplyScalar (gustFactor * wc.gustStrength))
      else base
    if wc.turbulenceScale > 0 then
      let turbScale := wc.turbulenceScale * 2
      let t := time * 0.5
      let px := position.x * 0.1 + t
      let py := position.y * 0.1 + t * 0.7
      let pz := position.z * 0.1 + t * 0.3
      withGust.add
        ⟨Real.sin (px * 2.3) * Real.cos (py * 1.7) * turbScale,
         Real.sin (py * 2.1) * Real.cos (pz * 1.9) * turbScale * 0.5,
         Real.sin (pz * 2.5) * Real.cos (px * 1.3) * turbScale⟩
    else withGust

/-- The dt clamp at the top of step: `dt = Math.min(dt, 0.05)`. -/
def dtClamped (dt : ℝ) : ℝ := min dt 0.05

/-- inertiaFactor: `0.3 + (mass / 0.65) * 0.7`. -/
def inertiaFactor (specs : DroneSpecs) : ℝ := 0.3 + (specs.mass / 0.65) * 0.7

/-- maxAccel clamp constant (rad/s²). -/
def maxAccel : ℝ := 100

/-- maxAngularSpeed clamp constant (rad/s). -/
def maxAngularSpeed : ℝ := 30

/-- groundHeight constant (m). -/
def groundHeight : ℝ := 0.05

/-- The angular acceleration applied in step (motor torque toward the
desired rates plus specs-driven angular drag), after the magnitude clamp
to `maxAccel`. -/
def stepAngularAccel (specs : DroneSpecs) (state : PhysicsState)
    (rollRate pitchRate yawRate : ℝ) : Vec3 :=
  let desiredAngularVel : Vec3 := ⟨pitchRate, yawRate, -rollRate⟩
  let angularError := desiredAngularVel.sub state.angularVelocity
  let motorAuthority := specs.responsiveness / inertiaFactor specs
  let angularAccel := (angularError.multiplyScalar motorAuthority).add
    (state.angularVelocity.multiplyScalar (-(specs.angularDrag / inertiaFactor specs)))
  if angularAccel.length > maxAccel then
    (angularAccel.normalize).multiplyScalar maxAccel
  else angularAccel

/-- The integrated angular velocity after the magnitude clamp to
`maxAngularSpeed` — the value the returned state carries before any
ground damping. -/
def stepNewAngularVelocity (specs : DroneSpecs) (state : PhysicsState)
    (rollRate pitchRate yawRate dt : ℝ) : Vec3 :=
  let v := state.angularVelocity.addScaledVector
    (stepAngularAccel specs state rollRate pitchRate yawRate) (dtClamped dt)
  if v.length > maxAngularSpeed then (v.normalize).multiplyScalar maxAngularSpeed
  else v

/-- Total force: gravity + thrust (body-up rotated to world) + drag. -/
def stepTotalForce (specs : DroneSpecs) (wind : WindConfig)
    (gustPhase : ℝ) (state : PhysicsState) (throttle time : ℝ) : Vec3 :=
  let gravityForce : Vec3 := ⟨0, -(GRAVITY * specs.mass), 0⟩
  let thrustMagnitude := calculateThrust specs throttle
  let thrustDirection := (Vec3.mk 0 1 0).applyQuaternion state.quaternion
  let thrustForce := thrustDirection.multiplyScalar thrustMagnitude
  let windVelocity := calculateWindVelocity wind gustPhase time state.position
  let dragForce := calculateDrag specs state.velocity windVelocity
  (gravityForce.add thrustForce).add dragForce

/-- The integrated velocity before the ground-contact adjustments. -/
def stepNewVelocity (specs : DroneSpecs) (wind : WindConfig) (gustPhase : ℝ)
    (state : PhysicsState) (throttle dt time : ℝ) : Vec3 :=
  let acceleration := (stepTotalForce specs wind gustPhase state throttle time).divideScalar
    specs.mass
  state.velocity.addScaledVector acceleration (dtClamped dt)

/-- The integrated position before the ground clamp. -/
def stepNewPosition (specs : DroneSpecs) (wind : WindConfig) (gustPhase : ℝ)
    (state : PhysicsState) (throttle dt time : ℝ) : Vec3 :=
  state.position.addScaledVector
    (stepNewVelocity specs wind gustPhase state throttle dt time) (dtClamped dt)

/-- The orientation after quaternion integration. -/
def stepNewQuaternion (specs : DroneSpecs) (state : PhysicsState)
    (rollRate pitchRate yawRate dt : ℝ) : Quat :=
  let nav := stepNewAngularVelocity specs state rollRate pitchRate yawRate dt
  let angularSpeed := nav.length
  if angularSpeed > 0.0001 then
    ((state.quaternion.multiply
      (Quat.setFromAxisAngle nav.normalize (angularSpeed * dtClamped dt)))).normalize
  else state.quaternion

/-- step (src/services/dronePhysics.ts lines 223-352).  The trailing NaN
check of the source cannot fire over the reals (no value is NaN), so the
computed state is returned unconditionally; the NaN path is modelled in
the DPN model. -/
def step (specs : DroneSpecs) (wind : WindConfig) (gustPhase : ℝ)
    (state : PhysicsState)
    (throttle rollRate pitchRate yawRate dt time : ℝ) : PhysicsState :=
  let newPosition := stepNewPosition specs wind gustPhase state throttle dt time
  let newVelocity := stepNewVelocity specs wind gustPhase state throttle dt time
  let newAngularVelocity := stepNewAngularVelocity specs state rollRate pitchRate yawRate dt
  let newQuaternion := stepNewQuaternion specs state rollRate pitchRate yawRate dt
  if newPosition.y < groundHeight then
    { position := ⟨newPosition.x, groundHeight, newPosition.z⟩
      velocity := ⟨newVelocity.x * 0.95,
        (if newVelocity.y < 0 then 0 else newVelocity.y),
        newVelocity.z * 0.95⟩
      quaternion := newQuaternion
      angularVelocity := newAngularVelocity.multiplyScalar 0.9 }
  else
    { position := newPosition
      velocity := newVelocity
      quaternion := newQuaternion
      angularVelocity := newAngularVelocity }

/-- One frame's worth of step inputs. -/
structure StepInputs where
  throttle : ℝ
  rollRate : ℝ
  pitchRate : ℝ
  yawRate : ℝ
  dt : ℝ
  time : ℝ

/-- Repeated stepping from the engine's initial state with per-frame
inputs `f`.  The gust-phase accumulator only advances when wind gusts are
enabled; every repeated-stepping property below has wind disabled, where
the source leaves the phase untouched, so it is kept fixed here. -/
def stepsFrom (specs : DroneSpecs) (wind : WindConfig) (gustPhase : ℝ)
    (f : ℕ → StepInputs) : ℕ → PhysicsState
  | 0 => createInitialState none
  | n + 1 =>
    let i := f n
    step specs wind gustPhase (stepsFrom specs wind gustPhase f n)
      i.throttle i.rollRate i.pitchRate i.yawRate i.dt i.time

end DP

/-! ## Flight physics engine, NaN-tracking model.  `none` plays the role
of IEEE NaN: every arithmetic operation with a `none` operand yields
`none` (as IEEE arithmetic propagates NaN, including `0 * NaN = NaN`),
ordered comparisons involving `none` are false, `Math.sqrt` and
`Math.sin`/`Math.cos` of `none` are `none`, JavaScript's falsy-guard
`length() || 1` maps a `none` or zero length to 1, and `isNaN` is
`Option.isNone`.  Engine configuration (specs, wind config, inputs) is
finite and is shared with the DP model; only the physics state carries
possibly-NaN values. -/

namespace DPN

open scoped Classical

/-- A JavaScript number that is either finite (`some`) or NaN (`none`).
Finite overflow to ±Infinity is outside the model. -/
abbrev F := Option ℝ

/-- NaN-propagating addition. -/
def fadd : F → F → F
  | some a, some b => some (a + b)
  | _, _ => none

/-- NaN-propagating subtraction. -/
def fsub : F → F → F
  | some a, some b => some (a - b)
  | _, _ => none

/-- NaN-propagating multiplication (note `0 * NaN = NaN` in IEEE). -/
def fmul : F → F → F
  | some a, some b => some (a * b)
  | _, _ => none

/-- NaN-propagating negation. -/
def fneg : F → F := Option.map (fun a => -a)

/-- NaN-propagating reciprocal (all uses below have a nonzero finite or
NaN argument, so the JavaScript 1/0 = Infinity case is not reached). -/
def finv : F → F := Option.map (fun a => 1 / a)

/-- NaN-propagating Math.sqrt (all uses below are on sums of squares, so
the JavaScript sqrt-of-negative NaN case is not reached). -/
def fsqrt : F → F := Option.map Real.sqrt

/-- NaN-propagating Math.sin. -/
def fsin : F → F := Option.map Real.sin

/-- NaN-propagating Math.cos. -/
def fcos : F → F := Option.map Real.cos

/-- Strict less-than: false whenever either side is NaN. -/
def flt : F → F → Prop
  | some a, some b => a < b
  | _, _ => False

/-- Vector3 with possibly-NaN components. -/
structure Vec3F where
  x : F
  y : F
  z : F

/-- The zero vector (`set(0, 0, 0)`). -/
def Vec3F.zero : Vec3F := ⟨some 0, some 0, some 0⟩

/-- Vector3.add. -/
def Vec3F.add (a b : Vec3F) : Vec3F := ⟨fadd a.x b.x, fadd a.y b.y, fadd a.z b.z⟩

/-- Vector3.sub. -/
def Vec3F.sub (a b : Vec3F) : Vec3F := ⟨fsub a.x b.x, fsub a.y b.y, fsub a.z b.z⟩

/-- Vector3.multiplyScalar. -/
def Vec3F.multiplyScalar (v : Vec3F) (s : F) : Vec3F :=
  ⟨fmul v.x s, fmul v.y s, fmul v.z s⟩

/-- Vector3.length. -/
def Vec3F.length (v : Vec3F) : F :=
  fsqrt (fadd (fadd (fmul v.x v.x) (fmul v.y v.y)) (fmul v.z v.z))

/-- The JavaScript guard `length() || 1`: 1 when the length is NaN or 0. -/
def orOne : F → ℝ
  | none => 1
  | some l => if l = 0 then 1 else l

/-- Vector3.normalize: `divideScalar(length() || 1)`, i.e. multiply each
component by the finite scalar `1 / (length() || 1)`. -/
def Vec3F.normalize (v : Vec3F) : Vec3F :=
  v.multiplyScalar (some (1 / orOne v.length))

/-- Quaternion with possibly-NaN components. -/
structure QuatF where
  x : F
  y : F
  z : F
  w : F

/-- The identity quaternion. -/
def QuatF.identity : QuatF := ⟨some 0, some 0, some 0, some 1⟩

/-- Quaternion.length. -/
def QuatF.length (q : QuatF) : F :=
  fsqrt (fadd (fadd (fadd (fmul q.x q.x) (fmul q.y q.y)) (fmul q.z q.z)) (fmul q.w q.w))

/-- Quaternion.normalize: exact-zero length resets to the identity;
otherwise (including a NaN length) scale by the reciprocal length. -/
def QuatF.normalize (q : QuatF) : QuatF :=
  if q.length = some 0 then QuatF.identity
  else
    let l := finv q.length
    ⟨fmul q.x l, fmul q.y l, fmul q.z l, fmul q.w l⟩

/-- Quaternion.multiply. -/
def QuatF.multiply (a b : QuatF) : QuatF :=
  ⟨fsub (fadd (fadd (fmul a.x b.w) (fmul a.w b.x)) (fmul a.y b.z)) (fmul a.z b.y),
   fsub (fadd (fadd (fmul a.y b.w) (fmul a.w b.y)) (fmul a.z b.x)) (fmul a.x b.z),
   fsub (fadd (fadd (fmul a.z b.w) (fmul a.w b.z)) (fmul a.x b.y)) (fmul a.y b.x),
   fsub (fsub (fsub (fmul a.w b.w) (fmul a.x b.x)) (fmul a.y b.y)) (fmul a.z b.z)⟩

/-- Quaternion.setFromAxisAngle. -/
def QuatF.setFromAxisAngle (axis : Vec3F) (angle : F) : QuatF :=
  let halfAngle := Option.map (fun a => a / 2) angle
  let s := fsin halfAngle
  ⟨fmul axis.x s, fmul axis.y s, fmul axis.z s, fcos halfAngle⟩

/-- Vector3.applyQuaternion. -/
def Vec3F.applyQuaternion (v : Vec3F) (q : QuatF) : Vec3F :=
  let tx := fmul (some 2) (fsub (fmul q.y v.z) (fmul q.z v.y))
  let ty := fmul (some 2) (fsub (fmul q.z v.x) (fmul q.x v.z))
  let tz := fmul (some 2) (fsub (fmul q.x v.y) (fmul q.y v.x))
  ⟨fsub (fadd (fadd v.x (fmul q.w tx)) (fmul q.y tz)) (fmul q.z ty),
   fsub (fadd (fadd v.y (fmul q.w ty)) (fmul q.z tx)) (fmul q.x tz),
   fsub (fadd (fadd v.z (fmul q.w tz)) (fmul q.x ty)) (fmul q.y tx)⟩

/-- PhysicsState with possibly-NaN components. -/
structure PhysicsStateN where
  position : Vec3F
  velocity : Vec3F
  quaternion : QuatF
  angularVelocity : Vec3F

/-- createInitialState (no position argument) in the NaN model. -/
def initialStateN : PhysicsStateN :=
  { position := ⟨some 0, some 2, some 0⟩
    velocity := Vec3F.zero
    quaternion := QuatF.identity
    angularVelocity := Vec3F.zero }

/-- calculateDrag in the NaN model. -/
def calculateDragN (specs : DP.DroneSpecs) (velocity airVelocity : Vec3F) : Vec3F :=
  let rel := velocity.sub airVelocity
  let speed := rel.length
  if flt speed (some 0.001) then Vec3F.zero
  else
    let dragMagnitude := fmul (fmul (fmul (fmul (fmul (some 0.5)
      (some DP.AIR_DENSITY)) speed) speed)
      (some specs.dragCoefficient)) (some specs.frontalArea)
    (rel.normalize).multiplyScalar (fneg dragMagnitude)

/-- calculateWindVelocity in the NaN model (only the position argument can
carry NaN; the configuration and accumulators are finite). -/
def calculateWindVelocityN (wc : DP.WindConfig) (gustPhase time : ℝ)
    (position : Vec3F) : Vec3F :=
  if !wc.enabled then Vec3F.zero
  else
    let base : Vec3F := ⟨some (wc.direction.x * wc.baseSpeed),
      some (wc.direction.y * wc.baseSpeed), some (wc.direction.z * wc.baseSpeed)⟩
    let withGust :=
      if wc.gustStrength > 0 then
        let phase := gustPhase + wc.gustFrequency * 0.016
        let gustFactor := max 0 (Real.sin (phase * Real.pi * 2) *
          Real.sin (phase * Real.pi * 0.7))
        base.add ⟨some (wc.direction.x * (gustFactor * wc.gustStrength)),
          some (wc.direction.y * (gustFactor * wc.gustStrength)),
          some (wc.direction.z * (gustFactor * wc.gustStrength))⟩
      else base
    if wc.turbulenceScale > 0 then
      let turbScale := wc.turbulenceScale * 2
      let t := time * 0.5
      let px := fadd (fmul position.x (some 0.1)) (some t)
      let py := fadd (fmul position.y (some 0.1)) (some (t * 0.7))
      let pz := fadd (fmul position.z (some 0.1)) (some (t * 0.3))
      withGust.add
        ⟨fmul (fmul (fsin (fmul px (some 2.3))) (fcos (fmul py (some 1.7)))) (some turbScale),
         fmul (fmul (fmul (fsin (fmul py (some 2.1))) (fcos (fmul pz (some 1.9)))) (some turbScale)) (some 0.5),
         fmul (fmul (fsin (fmul pz (some 2.5))) (fcos (fmul px (some 1.3)))) (some turbScale)⟩
    else withGust

/-- Total force in the NaN model: gravity + thrust (body up rotated by
the possibly-NaN orientation) + drag against the wind. -/
def stepNTotalForce (specs : DP.DroneSpecs) (wind : DP.WindConfig)
    (gustPhase : ℝ) (state : PhysicsStateN) (throttle time : ℝ) : Vec3F :=
  let gravityForce : Vec3F := ⟨some 0, some (-(DP.GRAVITY * specs.mass)), some 0⟩
  let thrustMagnitude := DP.calculateThrust specs throttle
  let thrustDirection := (Vec3F.mk (some 0) (some 1) (some 0)).applyQuaternion state.quaternion
  let thrustForce := thrustDirection.multiplyScalar (some thrustMagnitude)
  let windVelocity := calculateWindVelocityN wind gustPhase time state.position
  let dragForce := calculateDragN specs state.velocity windVelocity
  (gravityForce.add thrustForce).add dragForce

/-- Integrated velocity in the NaN model. -/
def stepNNewVelocity (specs : DP.DroneSpecs) (wind : DP.WindConfig)
    (gustPhase : ℝ) (state : PhysicsStateN) (throttle dt time : ℝ) : Vec3F :=
  let acceleration := (stepNTotalForce specs wind gustPhase state throttle
    time).multiplyScalar (some (1 / specs.mass))
  state.velocity.add (acceleration.multiplyScalar (some (DP.dtClamped dt)))

/-- Integrated position in the NaN model. -/
def stepNNewPosition (specs : DP.DroneSpecs) (wind : DP.WindConfig)
    (gustPhase : ℝ) (state : PhysicsStateN) (throttle dt time : ℝ) : Vec3F :=
  state.position.add ((stepNNewVelocity specs wind gustPhase state throttle dt
    time).multiplyScalar (some (DP.dtClamped dt)))

/-- Clamped angular acceleration in the NaN model. -/
def stepNAngularAccel (specs : DP.DroneSpecs) (state : PhysicsStateN)
    (rollRate pitchRate yawRate : ℝ) : Vec3F :=
  let desiredAngularVel : Vec3F := ⟨some pitchRate, some yawRate, some (-rollRate)⟩
  let angularError := desiredAngularVel.sub state.angularVelocity
  let motorAuthority := specs.responsiveness / DP.inertiaFactor specs
  let angularAccel0 := (angularError.multiplyScalar (some motorAuthority)).add
    (state.angularVelocity.multiplyScalar
      (some (-(specs.angularDrag / DP.inertiaFactor specs))))
  if flt (some DP.maxAccel) angularAccel0.length then
    (angularAccel0.normalize).multiplyScalar (some DP.maxAccel)
  else angularAccel0

/-- Clamped integrated angular velocity in the NaN model. -/
def stepNNewAngularVelocity (specs : DP.DroneSpecs) (state : PhysicsStateN)
    (rollRate pitchRate yawRate dt : ℝ) : Vec3F :=
  let v := state.angularVelocity.add
    ((stepNAngularAccel specs state rollRate pitchRate yawRate).multiplyScalar
      (some (DP.dtClamped dt)))
  if flt (some DP.maxAngularSpeed) v.length then
    (v.normalize).multiplyScalar (some DP.maxAngularSpeed)
  else v

/-- Integrated orientation in the NaN model. -/
def stepNNewQuaternion (specs : DP.DroneSpecs) (state : PhysicsStateN)
    (rollRate pitchRate yawRate dt : ℝ) : QuatF :=
  let nav := stepNNewAngularVelocity specs state rollRate pitchRate yawRate dt
  let angularSpeed := nav.length
  if flt (some 0.0001) angularSpeed then
    (state.quaternion.multiply
      (QuatF.setFromAxisAngle nav.normalize
        (fmul angularSpeed (some (DP.dtClamped dt))))).normalize
  else state.quaternion

/-- step in the NaN-tracking model, including the source's trailing NaN
check on `newPosition.x`, `newVelocity.x` and `newQuaternion.x` (the
post-ground-collision values, as in the source): when any of them is NaN
the freshly created initial state is returned instead. -/
def stepN (specs : DP.DroneSpecs) (wind : DP.WindConfig) (gustPhase : ℝ)
    (state : PhysicsStateN)
    (throttle rollRate pitchRate yawRate dt time : ℝ) : PhysicsStateN :=
  let newPosition := stepNNewPosition specs wind gustPhase state throttle dt time
  let newVelocity := stepNNewVelocity specs wind gustPhase state throttle dt time
  let newAngularVelocity := stepNNewAngularVelocity specs state rollRate pitchRate
    yawRate dt
  let newQuaternion := stepNNewQuaternion specs state rollRate pitchRate yawRate dt
  let grounded := flt newPosition.y (some DP.groundHeight)
  let position1 : Vec3F :=
    if grounded then ⟨newPosition.x, some DP.groundHeight, newPosition.z⟩
    else newPosition
  let velocity1 : Vec3F :=
    if grounded then
      ⟨fmul newVelocity.x (some 0.95),
       (if flt newVelocity.y (some 0) then some 0 else newVelocity.y),
       fmul newVelocity.z (some 0.95)⟩
    else newVelocity
  let angularVelocity1 :=
    if grounded then newAngularVelocity.multiplyScalar (some 0.9)
    else newAngularVelocity
  if position1.x.isNone ∨ velocity1.x.isNone ∨ newQuaternion.x.isNone then
    initialStateN
  else
    { position := position1
      velocity := velocity1
      quaternion := newQuaternion
      angularVelocity := angularVelocity1 }

end DPN

end

/-! ## Helper lemmas -/

theorem jmax_eq_max (a b : ℚ) : jmax a b = max a b := by
  unfold jmax; split <;> [exact (max_eq_right (le_of_lt (by assumption))).symm;
    exact (max_eq_left (not_lt.mp (by assumption))).symm]

theorem jmin_eq_min (a b : ℚ) : jmin a b = min a b := by
  unfold jmin; split <;> [exact (min_eq_right (le_of_lt (by assumption))).symm;
    exact (min_eq_left (not_lt.mp (by assumption))).symm]

theorem jabs_eq_abs (a : ℚ) : jabs a = |a| := by
  unfold jabs; split <;> [exact (abs_of_neg (by assumption)).symm;
    exact (abs_of_nonneg (not_lt.mp (by assumption))).symm]

theorem clamp_le_one (x : ℚ) : max (-1) (min 1 x) ≤ 1 :=
  max_le (by norm_num) (min_le_left 1 x)

theorem neg_one_le_clamp (x : ℚ) : -1 ≤ max (-1) (min 1 x) := le_max_left _ _

/-- normalizeInput always produces an optionally negated clamp of some
ratio. -/
theorem normalizeInput_shape (raw : ℚ) (cal : AxisCalibration) :
    ∃ X : ℚ, normalizeInput raw cal =
      if cal.inverted then -(max (-1) (min 1 X)) else max (-1) (min 1 X) := by
  unfold normalizeInput
  simp only [jmax_eq_max, jmin_eq_min]
  exact ⟨_, rfl⟩

/-! ## C6 -/

/-- C6: for every calibration with min < center < max, both half-spans at
least 0.001 and inverted = false: the center maps to 0, the max to 1, the
min to -1; every raw input lands in [-1, 1]; and flipping `inverted`
negates the result. -/
theorem normalizeInput_contract (cal : AxisCalibration)
    (hmin : cal.min < cal.center) (hmax : cal.center < cal.max)
    (hspan1 : 1/1000 ≤ cal.max - cal.center) (hspan2 : 1/1000 ≤ cal.center - cal.min)
    (hinv : cal.inverted = false) :
    normalizeInput cal.center cal = 0 ∧
    normalizeInput cal.max cal = 1 ∧
    normalizeInput cal.min cal = -1 ∧
    (∀ raw : ℚ, -1 ≤ normalizeInput raw cal ∧ normalizeInput raw cal ≤ 1) ∧
    (∀ raw : ℚ, normalizeInput raw { cal with inverted := true } =
      -(normalizeInput raw cal)) := by
  have habs1 : ¬ jabs (cal.max - cal.center) < 1/1000 := by
    rw [jabs_eq_abs, abs_of_pos (by linarith)]; linarith
  have habs2 : ¬ jabs (cal.center - cal.min) < 1/1000 := by
    rw [jabs_eq_abs, abs_of_pos (by linarith)]; linarith
  refine ⟨?_, ?_, ?_, ?_, ?_⟩
  · simp only [normalizeInput, jmax_eq_max, jmin_eq_min, hinv,
      if_neg (lt_irrefl cal.center), if_neg habs2, sub_self, neg_zero, zero_div,
      Bool.false_eq_true, if_false]
    norm_num
  · simp only [normalizeInput, jmax_eq_max, jmin_eq_min, hinv, if_pos hmax,
      if_neg habs1, Bool.false_eq_true, if_false]
    rw [div_self (by linarith)]
    norm_num
  · have hle : ¬ cal.min > cal.center := not_lt.mpr (le_of_lt hmin)
    simp only [normalizeInput, jmax_eq_max, jmin_eq_min, hinv, if_neg hle,
      if_neg habs2, Bool.false_eq_true, if_false]
    rw [neg_div, div_self (by linarith)]
    norm_num
  · intro raw
    obtain ⟨X, hX⟩ := normalizeInput_shape raw cal
    rw [hX, hinv]
    simp only [Bool.false_eq_true, if_false]
    exact ⟨neg_one_le_clamp X, clamp_le_one X⟩
  · intro raw
    simp only [normalizeInput, hinv, Bool.false_eq_true, if_false, if_true]

/-- C6 witness at the default calibration (min -1, center 0, max 1). -/
theorem normalizeInput_contract_witness :
    normalizeInput 0 ⟨-1, 1, 0, false⟩ = 0 ∧
    normalizeInput 1 ⟨-1, 1, 0, false⟩ = 1 ∧
    normalizeInput (-1) ⟨-1, 1, 0, false⟩ = -1 ∧
    (∀ raw : ℚ, -1 ≤ normalizeInput raw ⟨-1, 1, 0, false⟩ ∧
      normalizeInput raw ⟨-1, 1, 0, false⟩ ≤ 1) ∧
    (∀ raw : ℚ, normalizeInput raw ⟨-1, 1, 0, true⟩ =
      -(normalizeInput raw ⟨-1, 1, 0, false⟩)) := by
  have h := normalizeInput_contract ⟨-1, 1, 0, false⟩
    (by norm_num) (by norm_num) (by norm_num) (by norm_num) rfl
  exact h

/-! ## C7 -/

/-- The super-rate denominator stays positive for deflections in [0, 1]. -/
theorem rate_denom_pos (t SR : ℚ) (h0 : 0 ≤ t) (h1 : t ≤ 1)
    (hsr : SR ≤ 99/100) : 0 < 1 - t * SR := by
  rcases le_or_lt SR 0 with h | h
  · have : t * SR ≤ 0 := mul_nonpos_of_nonneg_of_nonpos h0 h
    linarith
  · have : t * SR ≤ 1 * (99/100) := mul_le_mul h1 hsr (le_of_lt h) (by norm_num)
    linarith

/-- Core monotonicity of the rate-curve magnitude in the deflection
magnitude, for expo in [0, 1]. -/
theorem rate_core_mono (e SR t1 t2 : ℚ) (he0 : 0 ≤ e) (he1 : e ≤ 1)
    (hsr : SR ≤ 99/100) (h0 : 0 ≤ t1) (h12 : t1 ≤ t2) (h2 : t2 ≤ 1) :
    (e * t1^4 + (1 - e) * t1) / (1 - t1 * SR) ≤
      (e * t2^4 + (1 - e) * t2) / (1 - t2 * SR) := by
  have hD1 : 0 < 1 - t1 * SR := rate_denom_pos t1 SR h0 (le_trans h12 h2) hsr
  have hD2 : 0 < 1 - t2 * SR := rate_denom_pos t2 SR (le_trans h0 h12) h2 hsr
  rw [div_le_div_iff hD1 hD2]
  have key : (e * t2^4 + (1 - e) * t2) * (1 - t1 * SR)
      - (e * t1^4 + (1 - e) * t1) * (1 - t2 * SR)
      = e * (t2 - t1) * ((1 - t1) * (t2^3 + t2^2*t1 + t2*t1^2) + t1^3)
        + (1 - e) * (t2 - t1)
        + (1 - SR) * e * (t1 * t2) * (t2^3 - t1^3) := by ring
  have ht2 : 0 ≤ t2 := le_trans h0 h12
  have hB : 0 ≤ (1 - t1) * (t2^3 + t2^2*t1 + t2*t1^2) + t1^3 := by
    have hsum : 0 ≤ t2^3 + t2^2*t1 + t2*t1^2 :=
      add_nonneg (add_nonneg (pow_nonneg ht2 3)
        (mul_nonneg (pow_nonneg ht2 2) h0)) (mul_nonneg ht2 (pow_nonneg h0 2))
    exact add_nonneg (mul_nonneg (by linarith) hsum) (pow_nonneg h0 3)
  have hcube : t1^3 ≤ t2^3 := pow_le_pow_left h0 h12 3
  have hs1 : 0 ≤ e * (t2 - t1) * ((1 - t1) * (t2^3 + t2^2*t1 + t2*t1^2) + t1^3) :=
    mul_nonneg (mul_nonneg he0 (by linarith)) hB
  have hs2 : 0 ≤ (1 - e) * (t2 - t1) := mul_nonneg (by linarith) (by linarith)
  have hs3 : 0 ≤ (1 - SR) * e * (t1 * t2) * (t2^3 - t1^3) :=
    mul_nonneg (mul_nonneg (mul_nonneg (by linarith) he0)
      (mul_nonneg h0 ht2)) (by linarith)
  linarith

/-- On [-1, 1] the rate-curve magnitude factors as
`200 |rcRate| · N(|x|) / (1 - |x| · SR)` when expo lies in [0, 1]. -/
theorem abs_calculateRate (p : RateProfile) (he0 : 0 ≤ p.expo)
    (he1 : p.expo ≤ 1) (x : ℚ) (hx1 : -1 ≤ x) (hx2 : x ≤ 1) :
    |calculateRate x p| = 200 * |p.rcRate| *
      ((p.expo * |x|^4 + (1 - p.expo) * |x|) /
        (1 - |x| * min p.superRate (99/100))) := by
  have hD : 0 < 1 - |x| * min p.superRate (99/100) :=
    rate_denom_pos |x| _ (abs_nonneg x) (abs_le.mpr ⟨hx1, hx2⟩)
      (min_le_right _ _)
  have hfac : 0 ≤ |x|^3 * p.expo + (1 - p.expo) :=
    add_nonneg (mul_nonneg (pow_nonneg (abs_nonneg x) 3) he0) (by linarith)
  simp only [calculateRate, jmax_eq_max, jmin_eq_min, jabs_eq_abs,
    min_eq_right hx2, max_eq_right hx1]
  rw [abs_mul, abs_mul, abs_mul]
  have habs1 : |x * |x| ^ 3 * p.expo + x * (1 - p.expo)| =
      |x| * (|x| ^ 3 * p.expo + (1 - p.expo)) := by
    rw [show x * |x| ^ 3 * p.expo + x * (1 - p.expo)
        = x * (|x| ^ 3 * p.expo + (1 - p.expo)) by ring,
      abs_mul, abs_of_nonneg hfac]
  rw [habs1, abs_of_pos (one_div_pos.mpr hD),
    show |(200:ℚ)| = 200 by norm_num]
  ring

/-- C7 counterexample: with expo = 2 — a RateProfile the claim's "every
RateProfile" quantifier includes — the output magnitude is strictly
smaller at deflection 4/5 than at deflection 1/10, violating
monotonicity in |input|. -/
theorem calculateRate_not_monotone :
    ((1:ℚ)/10 < 4/5) ∧
    |calculateRate (4/5) ⟨1, 0, 2⟩| < |calculateRate (1/10) ⟨1, 0, 2⟩| := by
  constructor
  · norm_num
  · have h1 : calculateRate (1/10) ⟨1, 0, 2⟩ = -(499/25) := by
      norm_num [calculateRate, jmax, jmin, jabs]
    have h2 : calculateRate (4/5) ⟨1, 0, 2⟩ = 96/25 := by
      norm_num [calculateRate, jmax, jmin, jabs]
    rw [h1, h2, abs_neg, abs_of_pos (by norm_num : (0:ℚ) < 499/25),
      abs_of_pos (by norm_num : (0:ℚ) < 96/25)]
    norm_num

/-- C7 (amended): for every RateProfile, calculateRate(0) = 0 and
calculateRate(1) equals the Settings Panel max-velocity formula
`200 · rcRate / (1 - min(superRate, 0.99))`; and whenever the profile's
expo lies in the Settings slider range [0, 1], the output magnitude is
monotone in the deflection magnitude on [-1, 1]. -/
theorem calculateRate_contract (p : RateProfile) :
    calculateRate 0 p = 0 ∧
    (0 ≤ p.expo → p.expo ≤ 1 →
      ∀ x1 x2 : ℚ, -1 ≤ x1 → x1 ≤ 1 → -1 ≤ x2 → x2 ≤ 1 → |x1| ≤ |x2| →
      |calculateRate x1 p| ≤ |calculateRate x2 p|) ∧
    calculateRate 1 p = 200 * p.rcRate / (1 - min p.superRate (99/100)) := by
  refine ⟨?_, ?_, ?_⟩
  · norm_num [calculateRate, jmax, jmin, jabs]
  · intro he0 he1 x1 x2 h11 h12 h21 h22 hle
    rw [abs_calculateRate p he0 he1 x1 h11 h12,
      abs_calculateRate p he0 he1 x2 h21 h22]
    refine mul_le_mul_of_nonneg_left ?_ (by positivity)
    exact rate_core_mono p.expo (min p.superRate (99/100)) |x1| |x2|
      he0 he1 (min_le_right _ _) (abs_nonneg x1) hle (abs_le.mpr ⟨h21, h22⟩)
  · simp only [calculateRate, jmax_eq_max, jmin_eq_min, jabs_eq_abs]
    norm_num
    ring

/-- C7 witness at the default profile (rcRate 1, superRate 0.7, expo 0.2):
the monotonicity conjunct's expo-range hypotheses are discharged at
expo = 0.2. -/
theorem calculateRate_contract_witness :
    calculateRate 0 ⟨1, 7/10, 1/5⟩ = 0 ∧
    (∀ x1 x2 : ℚ, -1 ≤ x1 → x1 ≤ 1 → -1 ≤ x2 → x2 ≤ 1 → |x1| ≤ |x2| →
      |calculateRate x1 ⟨1, 7/10, 1/5⟩| ≤ |calculateRate x2 ⟨1, 7/10, 1/5⟩|) ∧
    calculateRate 1 ⟨1, 7/10, 1/5⟩ =
      200 * (1:ℚ) / (1 - min (7/10) (99/100)) :=
  ⟨(calculateRate_contract ⟨1, 7/10, 1/5⟩).1,
   (calculateRate_contract ⟨1, 7/10, 1/5⟩).2.1 (by norm_num) (by norm_num),
   (calculateRate_contract ⟨1, 7/10, 1/5⟩).2.2⟩

/-! ## C9 -/

/-- C9: selecting each named preset yields exactly its tabulated values
with `preset` set to the selected name, and each of the five tuning
sliders switches `preset` to CUSTOM while leaving the other four numeric
fields unchanged. -/
theorem selectPreset_and_sliders :
    (selectPreset .WHOOP_65MM = ⟨.WHOOP_65MM, 1/40, 3/20, 4/5, 5, 8⟩ ∧
     selectPreset .WHOOP_75MM = ⟨.WHOOP_75MM, 7/200, 1/4, 9/10, 9/2, 9⟩ ∧
     selectPreset .TOOTHPICK_3IN = ⟨.TOOTHPICK_3IN, 2/25, 6/5, 3/5, 7/2, 12⟩ ∧
     selectPreset .FREESTYLE_5IN = ⟨.FREESTYLE_5IN, 13/20, 9/2, 1, 3, 12⟩ ∧
     selectPreset .RACE_5IN = ⟨.RACE_5IN, 9/20, 11/2, 4/5, 2, 18⟩ ∧
     selectPreset .CINEWHOOP = ⟨.CINEWHOOP, 7/20, 5/2, 3/2, 4, 8⟩ ∧
     selectPreset .LONG_RANGE_7IN = ⟨.LONG_RANGE_7IN, 9/10, 6, 9/10, 7/2, 10⟩ ∧
     selectPreset .X_CLASS_10IN = ⟨.X_CLASS_10IN, 5/2, 15, 6/5, 4, 8⟩) ∧
    (∀ (s : DronePhysicsSettings) (v : ℚ),
      setMass s v = ⟨.CUSTOM, v, s.maxThrust, s.dragCoefficient,
        s.angularDrag, s.responsiveness⟩ ∧
      setMaxThrust s v = ⟨.CUSTOM, s.mass, v, s.dragCoefficient,
        s.angularDrag, s.responsiveness⟩ ∧
      setDragCoefficient s v = ⟨.CUSTOM, s.mass, s.maxThrust, v,
        s.angularDrag, s.responsiveness⟩ ∧
      setAngularDrag s v = ⟨.CUSTOM, s.mass, s.maxThrust, s.dragCoefficient,
        v, s.responsiveness⟩ ∧
      setResponsiveness s v = ⟨.CUSTOM, s.mass, s.maxThrust,
        s.dragCoefficient, s.angularDrag, v⟩) :=
  ⟨⟨rfl, rfl, rfl, rfl, rfl, rfl, rfl, rfl⟩,
   fun _ _ => ⟨rfl, rfl, rfl, rfl, rfl⟩⟩

/-! ## C2 -/

/-- C2 counterexample: a 16-byte report whose eight little-endian 16-bit
values are all 1500 (bytes 0xDC 0x05 repeated) should, per the claim,
publish (1500-1500)/500 = 0 on every channel; instead strategy 1's
generic USB-joystick branch fires (report length ≥ 11) and publishes
byte-wise values (data[i+1] / 127.5) - 1. -/
theorem handleInputReport_16byte_counterexample :
    HID.handleInputReport (List.replicate 8 0)
      [220, 5, 220, 5, 220, 5, 220, 5, 220, 5, 220, 5, 220, 5, 220, 5] ≠
      List.replicate 8 0 ∧
    HID.handleInputReport (List.replicate 8 0)
      [220, 5, 220, 5, 220, 5, 220, 5, 220, 5, 220, 5, 220, 5, 220, 5] =
      [-49/51, 37/51, -49/51, 37/51, -49/51, 37/51, -49/51, 37/51] := by
  have h : HID.handleInputReport (List.replicate 8 0)
      [220, 5, 220, 5, 220, 5, 220, 5, 220, 5, 220, 5, 220, 5, 220, 5] =
      [-49/51, 37/51, -49/51, 37/51, -49/51, 37/51, -49/51, 37/51] := by
    norm_num [HID.handleInputReport, HID.parseUSBJoystick, HID.getUint8,
      List.range_succ, jabs, List.replicate, List.set]
  refine ⟨?_, h⟩
  rw [h]
  intro hc
  have := congrArg (fun l => l.getD 0 (0:ℚ)) hc
  norm_num [List.replicate] at this

/-- C2 (amended): for every report of exactly 16 bytes the published
channels come from strategy 1's generic USB-joystick branch — channel i
is `data[i+1] / 127.5 - 1` — because `parseUSBJoystick` always returns a
non-null array for reports of at least 9 bytes, so the 16-bit
microsecond fallback is unreachable. -/
theorem handleInputReport_16byte (raw : List ℚ) (data : List ℕ)
    (h : data.length = 16) :
    HID.handleInputReport raw data =
      (List.range 8).foldl (fun acc i =>
        acc.set i ((HID.getUint8 data (i + 1) : ℚ) / (255/2) - 1))
        (List.replicate 8 0) := by
  simp only [HID.handleInputReport, HID.parseUSBJoystick, h]
  norm_num

/-- C2 amended witness: the all-zero 16-byte report decodes to eight
channels at -1. -/
theorem handleInputReport_16byte_witness :
    (List.replicate 16 0).length = 16 ∧
    HID.handleInputReport [] (List.replicate 16 0) =
      (List.range 8).foldl (fun acc i =>
        acc.set i ((HID.getUint8 (List.replicate 16 0) (i + 1) : ℚ) / (255/2) - 1))
        (List.replicate 8 0) :=
  ⟨by simp, handleInputReport_16byte [] (List.replicate 16 0) (by simp)⟩

/-! ## Vector lemmas for the real-number physics model -/

theorem vec_dot_self_nonneg (v : DP.Vec3) :
    0 ≤ v.x * v.x + v.y * v.y + v.z * v.z :=
  add_nonneg (add_nonneg (mul_self_nonneg v.x) (mul_self_nonneg v.y))
    (mul_self_nonneg v.z)

theorem vec_length_nonneg (v : DP.Vec3) : 0 ≤ v.length := Real.sqrt_nonneg _

theorem vec_length_sq (v : DP.Vec3) :
    v.length * v.length = v.x * v.x + v.y * v.y + v.z * v.z :=
  Real.mul_self_sqrt (vec_dot_self_nonneg v)

theorem vec_length_smul (v : DP.Vec3) (c : ℝ) :
    (v.multiplyScalar c).length = |c| * v.length := by
  unfold DP.Vec3.length DP.Vec3.multiplyScalar
  rw [show v.x * c * (v.x * c) + v.y * c * (v.y * c) + v.z * c * (v.z * c)
      = c ^ 2 * (v.x * v.x + v.y * v.y + v.z * v.z) by ring]
  rw [Real.sqrt_mul (sq_nonneg c), Real.sqrt_sq_eq_abs]

theorem vec_normalize_length (v : DP.Vec3) (h : v.length ≠ 0) :
    v.normalize.length = 1 := by
  have hpos : 0 < v.length := lt_of_le_of_ne (vec_length_nonneg v) (Ne.symm h)
  unfold DP.Vec3.normalize DP.Vec3.divideScalar
  rw [if_neg h, vec_length_smul, abs_of_pos (one_div_pos.mpr hpos),
    one_div_mul_cancel h]

/-- The engine's radial magnitude clamp never exceeds the bound. -/
theorem vec_clamp_length_le (v : DP.Vec3) (r : ℝ) (hr : 0 < r) :
    (if v.length > r then (v.normalize).multiplyScalar r else v).length ≤ r := by
  split_ifs with h
  · have hne : v.length ≠ 0 := ne_of_gt (lt_trans hr h)
    rw [vec_length_smul, vec_normalize_length v hne, abs_of_pos hr, mul_one]
  · exact not_lt.mp h

/-- Cauchy-Schwarz for the embedded 3-vectors. -/
theorem vec_dot_le (v w : DP.Vec3) : v.dot w ≤ v.length * w.length := by
  have hvv := vec_dot_self_nonneg v
  have hsq : (v.dot w) ^ 2 ≤
      (v.x * v.x + v.y * v.y + v.z * v.z) * (w.x * w.x + w.y * w.y + w.z * w.z) := by
    unfold DP.Vec3.dot
    nlinarith [sq_nonneg (v.x * w.y - v.y * w.x), sq_nonneg (v.x * w.z - v.z * w.x),
      sq_nonneg (v.y * w.z - v.z * w.y)]
  calc v.dot w ≤ |v.dot w| := le_abs_self _
    _ = Real.sqrt ((v.dot w) ^ 2) := (Real.sqrt_sq_eq_abs _).symm
    _ ≤ Real.sqrt ((v.x * v.x + v.y * v.y + v.z * v.z) *
        (w.x * w.x + w.y * w.y + w.z * w.z)) := Real.sqrt_le_sqrt hsq
    _ = v.length * w.length := by rw [Real.sqrt_mul hvv]; rfl

theorem vec_sub_addScaled (a b : DP.Vec3) (s : ℝ) :
    (a.addScaledVector b s).sub a = b.multiplyScalar s := by
  unfold DP.Vec3.addScaledVector DP.Vec3.add DP.Vec3.sub DP.Vec3.multiplyScalar
  simp only [DP.Vec3.mk.injEq]
  refine ⟨by ring, by ring, by ring⟩

theorem vec_mulScalar_mulScalar (v : DP.Vec3) (a b : ℝ) :
    (v.multiplyScalar a).multiplyScalar b = v.multiplyScalar (a * b) := by
  unfold DP.Vec3.multiplyScalar
  simp only [DP.Vec3.mk.injEq]
  refine ⟨by ring, by ring, by ring⟩

/-- Radial projection onto the closed ball of radius r moves a point no
farther from any point already inside the ball. -/
theorem vec_proj_lipschitz (v w : DP.Vec3) (r : ℝ) (hr : 0 < r)
    (hw : w.length ≤ r) (hv : r < v.length) :
    (((v.normalize).multiplyScalar r).sub w).length ≤ (v.sub w).length := by
  have hvpos : 0 < v.length := lt_trans hr hv
  have hvne : v.length ≠ 0 := ne_of_gt hvpos
  have hnorm : (v.normalize).multiplyScalar r = v.multiplyScalar (1 / v.length * r) := by
    unfold DP.Vec3.normalize DP.Vec3.divideScalar
    rw [if_neg hvne, vec_mulScalar_mulScalar]
  rw [hnorm]
  set s := 1 / v.length * r with hs
  have hs0 : 0 < s := mul_pos (one_div_pos.mpr hvpos) hr
  have hs1 : s ≤ 1 := by
    have hfrac : s = r / v.length := by rw [hs]; ring
    rw [hfrac]
    exact le_of_lt ((div_lt_one hvpos).mpr hv)
  have hvv := vec_dot_self_nonneg v
  have hvw : v.x * w.x + v.y * w.y + v.z * w.z ≤
      s * (v.x * v.x + v.y * v.y + v.z * v.z) := by
    have h1 : v.dot w ≤ v.length * w.length := vec_dot_le v w
    have h2 : v.length * w.length ≤ v.length * r :=
      mul_le_mul_of_nonneg_left hw (vec_length_nonneg v)
    have h3 : s * (v.x * v.x + v.y * v.y + v.z * v.z) = v.length * r := by
      rw [← vec_length_sq v, hs]
      field_simp
      ring
    have hdot : v.dot w = v.x * w.x + v.y * w.y + v.z * w.z := rfl
    rw [← hdot]
    linarith
  simp only [DP.Vec3.length, DP.Vec3.sub, DP.Vec3.multiplyScalar]
  apply Real.sqrt_le_sqrt
  have hbr : 0 ≤ (1 + s) * (v.x * v.x + v.y * v.y + v.z * v.z)
      - 2 * (v.x * w.x + v.y * w.y + v.z * w.z) := by
    have h4 : 0 ≤ (1 - s) * (v.x * v.x + v.y * v.y + v.z * v.z) :=
      mul_nonneg (by linarith) hvv
    nlinarith [h4, hvw]
  have hmain : 0 ≤ (1 - s) * ((1 + s) * (v.x * v.x + v.y * v.y + v.z * v.z)
      - 2 * (v.x * w.x + v.y * w.y + v.z * w.z)) :=
    mul_nonneg (by linarith) hbr
  nlinarith [hmain]

/-- The dt clamp never increases the magnitude ratio against the raw dt. -/
theorem dtClamped_ratio_le_one (dt : ℝ) : |DP.dtClamped dt * (1 / dt)| ≤ 1 := by
  unfold DP.dtClamped
  rcases le_total dt 0.05 with h | h
  · rw [min_eq_left h]
    by_cases hdt : dt = 0
    · simp [hdt]
    · rw [mul_one_div, div_self hdt]; norm_num
  · rw [min_eq_right h]
    have hpos : (0:ℝ) < dt := lt_of_lt_of_le (by norm_num) h
    rw [mul_one_div, abs_of_nonneg (by positivity)]
    exact (div_le_one hpos).mpr (by linarith)

/-! ## Evaluation lemmas shared by concrete physics scenarios -/

theorem windVelocity_disabled (wc : DP.WindConfig) (h : wc.enabled = false)
    (gustPhase time : ℝ) (pos : DP.Vec3) :
    DP.calculateWindVelocity wc gustPhase time pos = ⟨0, 0, 0⟩ := by
  unfold DP.calculateWindVelocity
  rw [h]
  rfl

theorem drag_of_rest (specs : DP.DroneSpecs) :
    DP.calculateDrag specs ⟨0, 0, 0⟩ ⟨0, 0, 0⟩ = ⟨0, 0, 0⟩ := by
  unfold DP.calculateDrag DP.Vec3.sub DP.Vec3.length
  norm_num [Real.sqrt_zero]

theorem applyQuaternion_id (v : DP.Vec3) :
    v.applyQuaternion ⟨0, 0, 0, 1⟩ = v := by
  obtain ⟨x, y, z⟩ := v
  unfold DP.Vec3.applyQuaternion
  simp only [DP.Vec3.mk.injEq]
  norm_num

/-! ## C5 -/

/-- C5: calling updateWindConfig with the non-zero direction (2, 0, 0)
leaves the stored direction equal to the raw vector, of length 2, not a
unit vector — `Object.assign` re-copies the raw `config.direction` after
the normalized value was stored, contradicting the WindConfig field's own
"normalized direction vector" documentation. -/
theorem updateWindConfig_direction_not_unit :
    (DP.updateWindConfig DP.DEFAULT_WIND_CONFIG
      { DP.WindConfigPatch.empty with direction := some ⟨2, 0, 0⟩ }).direction =
      DP.Vec3.mk 2 0 0 ∧
    ((DP.updateWindConfig DP.DEFAULT_WIND_CONFIG
      { DP.WindConfigPatch.empty with direction := some ⟨2, 0, 0⟩ }).direction).length = 2 := by
  refine ⟨rfl, ?_⟩
  show (DP.Vec3.mk 2 0 0).length = 2
  unfold DP.Vec3.length
  rw [show (2:ℝ) * 2 + 0 * 0 + 0 * 0 = 2 ^ 2 by norm_num,
    Real.sqrt_sq (by norm_num : (0:ℝ) ≤ 2)]

/-! ## C10 -/

/-- C10: a single step always returns a position at or above the ground
contact height 0.05, and every state reachable by repeated stepping from
the initial state (which starts at y = 2) stays at or above 0.05. -/
theorem step_above_ground :
    (∀ (specs : DP.DroneSpecs) (wind : DP.WindConfig) (gustPhase : ℝ)
      (state : DP.PhysicsState) (throttle rollRate pitchRate yawRate dt time : ℝ),
      DP.groundHeight ≤
        (DP.step specs wind gustPhase state throttle rollRate pitchRate yawRate
          dt time).position.y) ∧
    (∀ (specs : DP.DroneSpecs) (wind : DP.WindConfig) (gustPhase : ℝ)
      (f : ℕ → DP.StepInputs) (n : ℕ),
      DP.groundHeight ≤ (DP.stepsFrom specs wind gustPhase f n).position.y) := by
  have hstep : ∀ (specs : DP.DroneSpecs) (wind : DP.WindConfig) (gustPhase : ℝ)
      (state : DP.PhysicsState) (throttle rollRate pitchRate yawRate dt time : ℝ),
      DP.groundHeight ≤
        (DP.step specs wind gustPhase state throttle rollRate pitchRate yawRate
          dt time).position.y := by
    intro specs wind gustPhase state throttle rollRate pitchRate yawRate dt time
    simp only [DP.step]
    split_ifs with h h2
    · simp
    · simp
    · exact not_lt.mp h
  refine ⟨hstep, ?_⟩
  intro specs wind gustPhase f n
  cases n with
  | zero =>
    norm_num [DP.stepsFrom, DP.createInitialState, DP.groundHeight]
  | succ k =>
    exact hstep specs wind gustPhase _ _ _ _ _ _ _

/-! ## C4 -/

/-- C4: whenever the integrated position would cross below 0.05 with a
downward integrated vertical velocity, the returned state has its height
clamped to 0.05, vertical velocity zeroed, horizontal velocity at exactly
0.95 of the pre-clamp integrated components, and angular velocity scaled
by 0.9. -/
theorem step_ground_clamp (specs : DP.DroneSpecs) (wind : DP.WindConfig)
    (gustPhase : ℝ) (state : DP.PhysicsState)
    (throttle rollRate pitchRate yawRate dt time : ℝ)
    (h1 : (DP.stepNewPosition specs wind gustPhase state throttle dt time).y <
      DP.groundHeight)
    (h2 : (DP.stepNewVelocity specs wind gustPhase state throttle dt time).y < 0) :
    (DP.step specs wind gustPhase state throttle rollRate pitchRate yawRate
        dt time).position.y = DP.groundHeight ∧
    (DP.step specs wind gustPhase state throttle rollRate pitchRate yawRate
        dt time).velocity.y = 0 ∧
    (DP.step specs wind gustPhase state throttle rollRate pitchRate yawRate
        dt time).velocity.x =
      (DP.stepNewVelocity specs wind gustPhase state throttle dt time).x * 0.95 ∧
    (DP.step specs wind gustPhase state throttle rollRate pitchRate yawRate
        dt time).velocity.z =
      (DP.stepNewVelocity specs wind gustPhase state throttle dt time).z * 0.95 ∧
    (DP.step specs wind gustPhase state throttle rollRate pitchRate yawRate
        dt time).angularVelocity =
      (DP.stepNewAngularVelocity specs state rollRate pitchRate yawRate
        dt).multiplyScalar 0.9 := by
  have hs : DP.step specs wind gustPhase state throttle rollRate pitchRate yawRate
      dt time =
      { position := ⟨(DP.stepNewPosition specs wind gustPhase state throttle dt time).x,
          DP.groundHeight,
          (DP.stepNewPosition specs wind gustPhase state throttle dt time).z⟩
        velocity := ⟨(DP.stepNewVelocity specs wind gustPhase state throttle dt time).x * 0.95,
          0,
          (DP.stepNewVelocity specs wind gustPhase state throttle dt time).z * 0.95⟩
        quaternion := DP.stepNewQuaternion specs state rollRate pitchRate yawRate dt
        angularVelocity := (DP.stepNewAngularVelocity specs state rollRate pitchRate
          yawRate dt).multiplyScalar 0.9 } := by
    simp only [DP.step]
    rw [if_pos h1, if_pos h2]
  rw [hs]
  exact ⟨rfl, rfl, rfl, rfl, rfl⟩

/-- Integrated velocity in the concrete descent scenario (default specs,
wind off, rest state slightly above ground, zero throttle). -/
theorem c4_eval_velocity :
    DP.stepNewVelocity DP.DEFAULT_DRONE_SPECS DP.DEFAULT_WIND_CONFIG 0
      ⟨⟨0, 0.001, 0⟩, ⟨0, 0, 0⟩, ⟨0, 0, 0, 1⟩, ⟨0, 0, 0⟩⟩ 0 (1/60) 0 =
      ⟨0, -(9.81 / 60), 0⟩ := by
  simp only [DP.stepNewVelocity, DP.stepTotalForce,
    windVelocity_disabled DP.DEFAULT_WIND_CONFIG rfl, drag_of_rest,
    applyQuaternion_id, DP.calculateThrust, DP.DEFAULT_DRONE_SPECS,
    DP.Vec3.add, DP.Vec3.multiplyScalar, DP.Vec3.divideScalar,
    DP.Vec3.addScaledVector, DP.dtClamped, DP.GRAVITY, DP.Vec3.mk.injEq]
  norm_num [min_def]

/-- Integrated position in the concrete descent scenario. -/
theorem c4_eval_position :
    DP.stepNewPosition DP.DEFAULT_DRONE_SPECS DP.DEFAULT_WIND_CONFIG 0
      ⟨⟨0, 0.001, 0⟩, ⟨0, 0, 0⟩, ⟨0, 0, 0, 1⟩, ⟨0, 0, 0⟩⟩ 0 (1/60) 0 =
      ⟨0, 0.001 - 9.81 / 3600, 0⟩ := by
  unfold DP.stepNewPosition
  rw [c4_eval_velocity]
  simp only [DP.Vec3.addScaledVector, DP.Vec3.add, DP.Vec3.multiplyScalar,
    DP.dtClamped, DP.Vec3.mk.injEq]
  norm_num [min_def]

/-- C4 witness: the concrete descent crosses the ground and is clamped. -/
theorem step_ground_clamp_witness :
    (DP.step DP.DEFAULT_DRONE_SPECS DP.DEFAULT_WIND_CONFIG 0
        ⟨⟨0, 0.001, 0⟩, ⟨0, 0, 0⟩, ⟨0, 0, 0, 1⟩, ⟨0, 0, 0⟩⟩ 0 0 0 0 (1/60)
        0).position.y = DP.groundHeight ∧
    (DP.step DP.DEFAULT_DRONE_SPECS DP.DEFAULT_WIND_CONFIG 0
        ⟨⟨0, 0.001, 0⟩, ⟨0, 0, 0⟩, ⟨0, 0, 0, 1⟩, ⟨0, 0, 0⟩⟩ 0 0 0 0 (1/60)
        0).velocity.y = 0 ∧
    (DP.step DP.DEFAULT_DRONE_SPECS DP.DEFAULT_WIND_CONFIG 0
        ⟨⟨0, 0.001, 0⟩, ⟨0, 0, 0⟩, ⟨0, 0, 0, 1⟩, ⟨0, 0, 0⟩⟩ 0 0 0 0 (1/60)
        0).velocity.x =
      (DP.stepNewVelocity DP.DEFAULT_DRONE_SPECS DP.DEFAULT_WIND_CONFIG 0
        ⟨⟨0, 0.001, 0⟩, ⟨0, 0, 0⟩, ⟨0, 0, 0, 1⟩, ⟨0, 0, 0⟩⟩ 0 (1/60) 0).x * 0.95 ∧
    (DP.step DP.DEFAULT_DRONE_SPECS DP.DEFAULT_WIND_CONFIG 0
        ⟨⟨0, 0.001, 0⟩, ⟨0, 0, 0⟩, ⟨0, 0, 0, 1⟩, ⟨0, 0, 0⟩⟩ 0 0 0 0 (1/60)
        0).velocity.z =
      (DP.stepNewVelocity DP.DEFAULT_DRONE_SPECS DP.DEFAULT_WIND_CONFIG 0
        ⟨⟨0, 0.001, 0⟩, ⟨0, 0, 0⟩, ⟨0, 0, 0, 1⟩, ⟨0, 0, 0⟩⟩ 0 (1/60) 0).z * 0.95 ∧
    (DP.step DP.DEFAULT_DRONE_SPECS DP.DEFAULT_WIND_CONFIG 0
        ⟨⟨0, 0.001, 0⟩, ⟨0, 0, 0⟩, ⟨0, 0, 0, 1⟩, ⟨0, 0, 0⟩⟩ 0 0 0 0 (1/60)
        0).angularVelocity =
      (DP.stepNewAngularVelocity DP.DEFAULT_DRONE_SPECS
        ⟨⟨0, 0.001, 0⟩, ⟨0, 0, 0⟩, ⟨0, 0, 0, 1⟩, ⟨0, 0, 0⟩⟩ 0 0 0
        (1/60)).multiplyScalar 0.9 :=
  step_ground_clamp DP.DEFAULT_DRONE_SPECS DP.DEFAULT_WIND_CONFIG 0
    ⟨⟨0, 0.001, 0⟩, ⟨0, 0, 0⟩, ⟨0, 0, 0, 1⟩, ⟨0, 0, 0⟩⟩ 0 0 0 0 (1/60) 0
    (by rw [c4_eval_position]; norm_num [DP.groundHeight])
    (by rw [c4_eval_velocity]; norm_num)

/-! ## C8 -/

/-- The clamped angular acceleration never exceeds maxAccel in magnitude. -/
theorem stepAngularAccel_le (specs : DP.DroneSpecs) (state : DP.PhysicsState)
    (rollRate pitchRate yawRate : ℝ) :
    (DP.stepAngularAccel specs state rollRate pitchRate yawRate).length ≤
      DP.maxAccel := by
  unfold DP.stepAngularAccel
  exact vec_clamp_length_le _ _ (by norm_num [DP.maxAccel])

/-- The clamped new angular velocity never exceeds maxAngularSpeed. -/
theorem stepNewAngularVelocity_le (specs : DP.DroneSpecs)
    (state : DP.PhysicsState) (rollRate pitchRate yawRate dt : ℝ) :
    (DP.stepNewAngularVelocity specs state rollRate pitchRate yawRate dt).length ≤
      DP.maxAngularSpeed := by
  unfold DP.stepNewAngularVelocity
  exact vec_clamp_length_le _ _ (by norm_num [DP.maxAngularSpeed])

/-- The pre-damping angular-velocity delta is bounded by the clamped
acceleration times the clamped timestep. -/
theorem stepNewAngVel_delta_le (specs : DP.DroneSpecs) (state : DP.PhysicsState)
    (rollRate pitchRate yawRate dt : ℝ)
    (h : state.angularVelocity.length ≤ DP.maxAngularSpeed) :
    ((DP.stepNewAngularVelocity specs state rollRate pitchRate yawRate dt).sub
      state.angularVelocity).length ≤ |DP.dtClamped dt| * DP.maxAccel := by
  simp only [DP.stepNewAngularVelocity]
  generalize hA : DP.stepAngularAccel specs state rollRate pitchRate yawRate = A
  generalize hV : state.angularVelocity.addScaledVector A (DP.dtClamped dt) = V
  have hAlen : A.length ≤ DP.maxAccel := by
    rw [← hA]; exact stepAngularAccel_le specs state rollRate pitchRate yawRate
  have hsub : V.sub state.angularVelocity = A.multiplyScalar (DP.dtClamped dt) := by
    rw [← hV]; exact vec_sub_addScaled state.angularVelocity A (DP.dtClamped dt)
  have hvlen : (V.sub state.angularVelocity).length ≤ |DP.dtClamped dt| * DP.maxAccel := by
    rw [hsub, vec_length_smul]
    exact mul_le_mul_of_nonneg_left hAlen (abs_nonneg _)
  split_ifs with hc
  · calc ((V.normalize.multiplyScalar DP.maxAngularSpeed).sub
        state.angularVelocity).length
        ≤ (V.sub state.angularVelocity).length :=
          vec_proj_lipschitz V state.angularVelocity DP.maxAngularSpeed
            (by norm_num [DP.maxAngularSpeed]) h hc
      _ ≤ |DP.dtClamped dt| * DP.maxAccel := hvlen
  · exact hvlen

/-- C8: for any input state whose angular velocity is within the 30 rad/s
bound, the angular-velocity delta applied before ground damping, divided
by dt, has magnitude at most 100 rad/s², and the returned state's angular
velocity has magnitude at most 30 rad/s. -/
theorem step_angular_clamps (specs : DP.DroneSpecs) (wind : DP.WindConfig)
    (gustPhase : ℝ) (state : DP.PhysicsState)
    (throttle rollRate pitchRate yawRate dt time : ℝ)
    (h : state.angularVelocity.length ≤ 30) :
    (((DP.stepNewAngularVelocity specs state rollRate pitchRate yawRate dt).sub
        state.angularVelocity).multiplyScalar (1 / dt)).length ≤ 100 ∧
    (DP.step specs wind gustPhase state throttle rollRate pitchRate yawRate
      dt time).angularVelocity.length ≤ 30 := by
  have h30 : state.angularVelocity.length ≤ DP.maxAngularSpeed := by
    norm_num [DP.maxAngularSpeed]; exact h
  have hnv30 := stepNewAngularVelocity_le specs state rollRate pitchRate yawRate dt
  constructor
  · rw [vec_length_smul]
    have hdelta := stepNewAngVel_delta_le specs state rollRate pitchRate yawRate dt h30
    calc |1 / dt| * ((DP.stepNewAngularVelocity specs state rollRate pitchRate
          yawRate dt).sub state.angularVelocity).length
        ≤ |1 / dt| * (|DP.dtClamped dt| * DP.maxAccel) :=
          mul_le_mul_of_nonneg_left hdelta (abs_nonneg _)
      _ = |DP.dtClamped dt * (1 / dt)| * DP.maxAccel := by rw [abs_mul]; ring
      _ ≤ 1 * DP.maxAccel := mul_le_mul_of_nonneg_right (dtClamped_ratio_le_one dt)
          (by norm_num [DP.maxAccel])
      _ ≤ 100 := by norm_num [DP.maxAccel]
  · simp only [DP.step]
    split_ifs with h1 h2
    · show ((DP.stepNewAngularVelocity specs state rollRate pitchRate yawRate
          dt).multiplyScalar 0.9).length ≤ 30
      rw [vec_length_smul]
      have : |(0.9:ℝ)| = 0.9 := by norm_num
      rw [this]
      calc (0.9:ℝ) * (DP.stepNewAngularVelocity specs state rollRate pitchRate
            yawRate dt).length
          ≤ 0.9 * 30 := by
            refine mul_le_mul_of_nonneg_left ?_ (by norm_num)
            norm_num [DP.maxAngularSpeed] at hnv30
            exact hnv30
        _ ≤ 30 := by norm_num
    · show ((DP.stepNewAngularVelocity specs state rollRate pitchRate yawRate
          dt).multiplyScalar 0.9).length ≤ 30
      rw [vec_length_smul]
      have : |(0.9:ℝ)| = 0.9 := by norm_num
      rw [this]
      calc (0.9:ℝ) * (DP.stepNewAngularVelocity specs state rollRate pitchRate
            yawRate dt).length
          ≤ 0.9 * 30 := by
            refine mul_le_mul_of_nonneg_left ?_ (by norm_num)
            norm_num [DP.maxAngularSpeed] at hnv30
            exact hnv30
        _ ≤ 30 := by norm_num
    · norm_num [DP.maxAngularSpeed] at hnv30
      exact hnv30

/-- C8 witness: default specs at rest with an extreme 1000 rad/s roll-rate
target. -/
theorem step_angular_clamps_witness :
    (((DP.stepNewAngularVelocity DP.DEFAULT_DRONE_SPECS
        ⟨⟨0, 2, 0⟩, ⟨0, 0, 0⟩, ⟨0, 0, 0, 1⟩, ⟨0, 0, 0⟩⟩ 1000 0 0 (1/60)).sub
        (DP.PhysicsState.mk ⟨0, 2, 0⟩ ⟨0, 0, 0⟩ ⟨0, 0, 0, 1⟩
          ⟨0, 0, 0⟩).angularVelocity).multiplyScalar (1 / (1/60))).length ≤ 100 ∧
    (DP.step DP.DEFAULT_DRONE_SPECS DP.DEFAULT_WIND_CONFIG 0
      ⟨⟨0, 2, 0⟩, ⟨0, 0, 0⟩, ⟨0, 0, 0, 1⟩, ⟨0, 0, 0⟩⟩ 0 1000 0 0 (1/60)
      0).angularVelocity.length ≤ 30 :=
  step_angular_clamps DP.DEFAULT_DRONE_SPECS DP.DEFAULT_WIND_CONFIG 0
    ⟨⟨0, 2, 0⟩, ⟨0, 0, 0⟩, ⟨0, 0, 0, 1⟩, ⟨0, 0, 0⟩⟩ 0 1000 0 0 (1/60) 0
    (by norm_num [DP.Vec3.length, Real.sqrt_zero])

/-! ## C3 -/

/-- In the hover scenario the integrated velocity stays zero: thrust
exactly cancels gravity and the drone is at rest, so drag vanishes. -/
theorem hover_velocity (specs : DP.DroneSpecs) (wind : DP.WindConfig)
    (gustPhase throttle dt time : ℝ)
    (ht0 : 0 ≤ throttle) (ht1 : throttle ≤ 1)
    (hthrust : 4 * specs.maxThrust * throttle = specs.mass * DP.GRAVITY)
    (hw : wind.enabled = false) :
    DP.stepNewVelocity specs wind gustPhase
      ⟨⟨0, 2, 0⟩, ⟨0, 0, 0⟩, ⟨0, 0, 0, 1⟩, ⟨0, 0, 0⟩⟩ throttle dt time =
      ⟨0, 0, 0⟩ := by
  simp only [DP.stepNewVelocity, DP.stepTotalForce,
    windVelocity_disabled wind hw, drag_of_rest, applyQuaternion_id,
    DP.calculateThrust, DP.Vec3.add, DP.Vec3.multiplyScalar,
    DP.Vec3.divideScalar, DP.Vec3.addScaledVector, DP.Vec3.mk.injEq]
  rw [min_eq_right ht1, max_eq_right ht0, hthrust]
  refine ⟨by ring, ?_, by ring⟩
  field_simp
  left
  ring

/-- In the hover scenario the integrated position is unchanged. -/
theorem hover_position (specs : DP.DroneSpecs) (wind : DP.WindConfig)
    (gustPhase throttle dt time : ℝ)
    (ht0 : 0 ≤ throttle) (ht1 : throttle ≤ 1)
    (hthrust : 4 * specs.maxThrust * throttle = specs.mass * DP.GRAVITY)
    (hw : wind.enabled = false) :
    DP.stepNewPosition specs wind gustPhase
      ⟨⟨0, 2, 0⟩, ⟨0, 0, 0⟩, ⟨0, 0, 0, 1⟩, ⟨0, 0, 0⟩⟩ throttle dt time =
      ⟨0, 2, 0⟩ := by
  unfold DP.stepNewPosition
  rw [hover_velocity specs wind gustPhase throttle dt time ht0 ht1 hthrust hw]
  simp only [DP.Vec3.addScaledVector, DP.Vec3.add, DP.Vec3.multiplyScalar,
    DP.Vec3.mk.injEq]
  norm_num

/-- With zero rate targets and zero angular velocity the clamped angular
acceleration is zero. -/
theorem hover_angular_accel (specs : DP.DroneSpecs) :
    DP.stepAngularAccel specs
      ⟨⟨0, 2, 0⟩, ⟨0, 0, 0⟩, ⟨0, 0, 0, 1⟩, ⟨0, 0, 0⟩⟩ 0 0 0 = ⟨0, 0, 0⟩ := by
  norm_num [DP.stepAngularAccel, DP.Vec3.sub, DP.Vec3.multiplyScalar,
    DP.Vec3.add, DP.Vec3.length, Real.sqrt_zero, DP.maxAccel, DP.Vec3.mk.injEq]

/-- With zero rate targets and zero angular velocity the integrated
angular velocity stays zero. -/
theorem hover_angular_velocity (specs : DP.DroneSpecs) (dt : ℝ) :
    DP.stepNewAngularVelocity specs
      ⟨⟨0, 2, 0⟩, ⟨0, 0, 0⟩, ⟨0, 0, 0, 1⟩, ⟨0, 0, 0⟩⟩ 0 0 0 dt = ⟨0, 0, 0⟩ := by
  unfold DP.stepNewAngularVelocity
  rw [hover_angular_accel]
  norm_num [DP.Vec3.addScaledVector, DP.Vec3.add, DP.Vec3.multiplyScalar,
    DP.Vec3.length, Real.sqrt_zero, DP.maxAngularSpeed, DP.Vec3.mk.injEq]

/-- With zero angular velocity the orientation is unchanged. -/
theorem hover_quaternion (specs : DP.DroneSpecs) (dt : ℝ) :
    DP.stepNewQuaternion specs
      ⟨⟨0, 2, 0⟩, ⟨0, 0, 0⟩, ⟨0, 0, 0, 1⟩, ⟨0, 0, 0⟩⟩ 0 0 0 dt = ⟨0, 0, 0, 1⟩ := by
  unfold DP.stepNewQuaternion
  rw [hover_angular_velocity]
  norm_num [DP.Vec3.length, Real.sqrt_zero]

/-- The initial state is a fixed point of step under hover throttle. -/
theorem step_hover_fixed (specs : DP.DroneSpecs) (wind : DP.WindConfig)
    (gustPhase throttle dt time : ℝ)
    (ht0 : 0 ≤ throttle) (ht1 : throttle ≤ 1)
    (hthrust : 4 * specs.maxThrust * throttle = specs.mass * DP.GRAVITY)
    (hw : wind.enabled = false) :
    DP.step specs wind gustPhase (DP.createInitialState none)
      throttle 0 0 0 dt time = DP.createInitialState none := by
  show DP.step specs wind gustPhase
    ⟨⟨0, 2, 0⟩, ⟨0, 0, 0⟩, ⟨0, 0, 0, 1⟩, ⟨0, 0, 0⟩⟩ throttle 0 0 0 dt time =
    DP.createInitialState none
  simp only [DP.step,
    hover_position specs wind gustPhase throttle dt time ht0 ht1 hthrust hw,
    hover_velocity specs wind gustPhase throttle dt time ht0 ht1 hthrust hw,
    hover_angular_velocity specs dt, hover_quaternion specs dt]
  rw [if_neg (by norm_num [DP.groundHeight])]
  rfl

/-- C3: with wind disabled, zero rate targets and throttle balancing
gravity (4·maxThrust·throttle = mass·GRAVITY), every number of 1/60 s
steps from the default initial state leaves the height at exactly 2 and
the angular velocity at exactly zero. -/
theorem hover_equilibrium (specs : DP.DroneSpecs) (wind : DP.WindConfig)
    (gustPhase throttle : ℝ)
    (ht0 : 0 ≤ throttle) (ht1 : throttle ≤ 1)
    (hthrust : 4 * specs.maxThrust * throttle = specs.mass * DP.GRAVITY)
    (hw : wind.enabled = false) :
    ∀ n : ℕ,
      (DP.stepsFrom specs wind gustPhase
        (fun k => ⟨throttle, 0, 0, 0, 1/60, k * (1/60)⟩) n).position.y = 2 ∧
      (DP.stepsFrom specs wind gustPhase
        (fun k => ⟨throttle, 0, 0, 0, 1/60, k * (1/60)⟩) n).angularVelocity =
        ⟨0, 0, 0⟩ := by
  have hfix : ∀ n : ℕ, DP.stepsFrom specs wind gustPhase
      (fun k => ⟨throttle, 0, 0, 0, 1/60, k * (1/60)⟩) n =
      DP.createInitialState none := by
    intro n
    induction n with
    | zero => rfl
    | succ k ih =>
      simp only [DP.stepsFrom]
      rw [ih]
      exact step_hover_fixed specs wind gustPhase throttle (1/60) (k * (1/60))
        ht0 ht1 hthrust hw
  intro n
  rw [hfix n]
  exact ⟨rfl, rfl⟩

/-- C3 witness: default 5-inch specs hovering at throttle 0.35425 for 100
steps. -/
theorem hover_equilibrium_witness :
    (DP.stepsFrom DP.DEFAULT_DRONE_SPECS DP.DEFAULT_WIND_CONFIG 0
      (fun k => ⟨1417/4000, 0, 0, 0, 1/60, k * (1/60)⟩) 100).position.y = 2 ∧
    (DP.stepsFrom DP.DEFAULT_DRONE_SPECS DP.DEFAULT_WIND_CONFIG 0
      (fun k => ⟨1417/4000, 0, 0, 0, 1/60, k * (1/60)⟩) 100).angularVelocity =
      ⟨0, 0, 0⟩ :=
  hover_equilibrium DP.DEFAULT_DRONE_SPECS DP.DEFAULT_WIND_CONFIG 0 (1417/4000)
    (by norm_num) (by norm_num)
    (by norm_num [DP.DEFAULT_DRONE_SPECS, DP.GRAVITY]) rfl 100

/-! ## C1: NaN propagation lemmas -/

theorem fadd_none_left (b : DPN.F) : DPN.fadd none b = none := by
  cases b <;> rfl

theorem fadd_none_right (a : DPN.F) : DPN.fadd a none = none := by
  cases a <;> rfl

theorem fsub_none_left (b : DPN.F) : DPN.fsub none b = none := by
  cases b <;> rfl

theorem fsub_none_right (a : DPN.F) : DPN.fsub a none = none := by
  cases a <;> rfl

theorem fmul_none_left (b : DPN.F) : DPN.fmul none b = none := by
  cases b <;> rfl

theorem fmul_none_right (a : DPN.F) : DPN.fmul a none = none := by
  cases a <;> rfl

theorem fneg_none : DPN.fneg none = none := rfl

theorem fsqrt_none : DPN.fsqrt none = none := rfl

theorem flt_none_left (b : DPN.F) : DPN.flt none b = False := by
  cases b <;> rfl

theorem flt_none_right (a : DPN.F) : DPN.flt a none = False := by
  cases a <;> rfl

/-- A NaN in any component makes the vector length NaN. -/
theorem lengthF_none (v : DPN.Vec3F)
    (h : v.x = none ∨ v.y = none ∨ v.z = none) : v.length = none := by
  obtain ⟨x, y, z⟩ := v
  rcases h with h | h | h <;>
    simp_all [DPN.Vec3F.length, fadd_none_left, fadd_none_right,
      fmul_none_left, fmul_none_right, fsqrt_none]

/-- A NaN relative speed poisons every drag component. -/
theorem dragN_none (specs : DP.DroneSpecs) (vel wind : DPN.Vec3F)
    (h : (vel.sub wind).length = none) :
    DPN.calculateDragN specs vel wind = ⟨none, none, none⟩ := by
  simp only [DPN.calculateDragN, h, flt_none_left, if_false]
  simp [DPN.Vec3F.multiplyScalar, DPN.fneg, fmul_none_left, fmul_none_right]

/-- A NaN in any quaternion component poisons the x component of the
rotated thrust direction. -/
theorem thrustDirN_x_none (q : DPN.QuatF)
    (h : q.x = none ∨ q.y = none ∨ q.z = none ∨ q.w = none) :
    ((DPN.Vec3F.mk (some 0) (some 1) (some 0)).applyQuaternion q).x = none := by
  obtain ⟨qx, qy, qz, qw⟩ := q
  rcases h with h | h | h | h <;>
    simp_all [DPN.Vec3F.applyQuaternion, fadd_none_left, fadd_none_right,
      fsub_none_left, fsub_none_right, fmul_none_left, fmul_none_right]

/-- With a NaN quaternion component the x component of the total force is
NaN (via the thrust term). -/
theorem stepNTotalForce_x_none_of_quat (specs : DP.DroneSpecs)
    (wind : DP.WindConfig) (gustPhase : ℝ) (state : DPN.PhysicsStateN)
    (throttle time : ℝ)
    (h : state.quaternion.x = none ∨ state.quaternion.y = none ∨
      state.quaternion.z = none ∨ state.quaternion.w = none) :
    (DPN.stepNTotalForce specs wind gustPhase state throttle time).x = none := by
  have hdir := thrustDirN_x_none state.quaternion h
  simp [DPN.stepNTotalForce, DPN.Vec3F.add, DPN.Vec3F.multiplyScalar, hdir,
    fmul_none_left, fadd_none_left, fadd_none_right]

/-- With a NaN velocity component the x component of the total force is
NaN (via the drag term). -/
theorem stepNTotalForce_x_none_of_vel (specs : DP.DroneSpecs)
    (wind : DP.WindConfig) (gustPhase : ℝ) (state : DPN.PhysicsStateN)
    (throttle time : ℝ)
    (h : state.velocity.x = none ∨ state.velocity.y = none ∨
      state.velocity.z = none) :
    (DPN.stepNTotalForce specs wind gustPhase state throttle time).x = none := by
  have hdrag := dragN_none specs state.velocity
    (DPN.calculateWindVelocityN wind gustPhase time state.position)
    (lengthF_none _ (by
      rcases h with h | h | h
      · exact Or.inl (by simp [DPN.Vec3F.sub, h, fsub_none_left])
      · exact Or.inr (Or.inl (by simp [DPN.Vec3F.sub, h, fsub_none_left]))
      · exact Or.inr (Or.inr (by simp [DPN.Vec3F.sub, h, fsub_none_left]))))
  simp [DPN.stepNTotalForce, DPN.Vec3F.add, hdrag, fadd_none_right]

/-- Under the hypotheses of the NaN-safety property the integrated x
velocity is NaN. -/
theorem stepNNewVelocity_x_none (specs : DP.DroneSpecs) (wind : DP.WindConfig)
    (gustPhase : ℝ) (state : DPN.PhysicsStateN) (throttle dt time : ℝ)
    (h : state.velocity.x = none ∨ state.velocity.y = none ∨
      state.velocity.z = none ∨ state.quaternion.x = none ∨
      state.quaternion.y = none ∨ state.quaternion.z = none ∨
      state.quaternion.w = none) :
    (DPN.stepNNewVelocity specs wind gustPhase state throttle dt time).x = none := by
  have htf : (DPN.stepNTotalForce specs wind gustPhase state throttle time).x = none ∨
      state.velocity.x = none := by
    rcases h with h | h | h | h | h | h | h
    · exact Or.inr h
    · exact Or.inl (stepNTotalForce_x_none_of_vel specs wind gustPhase state
        throttle time (Or.inr (Or.inl h)))
    · exact Or.inl (stepNTotalForce_x_none_of_vel specs wind gustPhase state
        throttle time (Or.inr (Or.inr h)))
    · exact Or.inl (stepNTotalForce_x_none_of_quat specs wind gustPhase state
        throttle time (Or.inl h))
    · exact Or.inl (stepNTotalForce_x_none_of_quat specs wind gustPhase state
        throttle time (Or.inr (Or.inl h)))
    · exact Or.inl (stepNTotalForce_x_none_of_quat specs wind gustPhase state
        throttle time (Or.inr (Or.inr (Or.inl h))))
    · exact Or.inl (stepNTotalForce_x_none_of_quat specs wind gustPhase state
        throttle time (Or.inr (Or.inr (Or.inr h))))
  rcases htf with htf | hvx
  · simp [DPN.stepNNewVelocity, DPN.Vec3F.add, DPN.Vec3F.multiplyScalar, htf,
      fmul_none_left, fadd_none_right]
  · simp [DPN.stepNNewVelocity, DPN.Vec3F.add, hvx, fadd_none_left]

/-- C1 (amended): a NaN in position.x, in any velocity component, or in
any orientation component always propagates into one of the three checked
x components, so step returns exactly the freshly created initial state
(position (0,2,0), zero velocity and angular velocity, identity
orientation).  (A NaN confined to position.y or position.z escapes the
check — see the counterexample.) -/
theorem stepN_nan_reset (specs : DP.DroneSpecs) (wind : DP.WindConfig)
    (gustPhase : ℝ) (state : DPN.PhysicsStateN)
    (throttle rollRate pitchRate yawRate dt time : ℝ)
    (h : state.position.x = none ∨ state.velocity.x = none ∨
      state.velocity.y = none ∨ state.velocity.z = none ∨
      state.quaternion.x = none ∨ state.quaternion.y = none ∨
      state.quaternion.z = none ∨ state.quaternion.w = none) :
    DPN.stepN specs wind gustPhase state throttle rollRate pitchRate yawRate
      dt time = DPN.initialStateN := by
  have hnpx : (DPN.stepNNewPosition specs wind gustPhase state throttle dt
      time).x = none := by
    rcases h with h | h
    · simp [DPN.stepNNewPosition, DPN.Vec3F.add, h, fadd_none_left]
    · have hv := stepNNewVelocity_x_none specs wind gustPhase state throttle
        dt time h
      simp [DPN.stepNNewPosition, DPN.Vec3F.add, DPN.Vec3F.multiplyScalar, hv,
        fmul_none_left, fadd_none_right]
  simp only [DPN.stepN]
  by_cases hg : DPN.flt (DPN.stepNNewPosition specs wind gustPhase state
      throttle dt time).y (some DP.groundHeight)
  · simp [hg, hnpx]
  · simp [hg, hnpx]

/-- C1 amended-claim witness: a NaN in velocity.y triggers the reset. -/
theorem stepN_nan_reset_witness :
    DPN.stepN DP.DEFAULT_DRONE_SPECS DP.DEFAULT_WIND_CONFIG 0
      ⟨DPN.Vec3F.zero, ⟨some 0, none, some 0⟩, DPN.QuatF.identity,
        DPN.Vec3F.zero⟩ 0 0 0 0 (1/60) 0 = DPN.initialStateN :=
  stepN_nan_reset DP.DEFAULT_DRONE_SPECS DP.DEFAULT_WIND_CONFIG 0
    ⟨DPN.Vec3F.zero, ⟨some 0, none, some 0⟩, DPN.QuatF.identity,
      DPN.Vec3F.zero⟩ 0 0 0 0 (1/60) 0 (Or.inr (Or.inr (Or.inl rfl)))

/-- Wind sampling with wind disabled yields the zero vector (NaN model). -/
theorem windVelocityN_disabled (wc : DP.WindConfig) (h : wc.enabled = false)
    (gustPhase time : ℝ) (pos : DPN.Vec3F) :
    DPN.calculateWindVelocityN wc gustPhase time pos = DPN.Vec3F.zero := by
  unfold DPN.calculateWindVelocityN
  rw [h]
  rfl

/-- Drag of a drone at rest in still air is zero (NaN model). -/
theorem dragN_of_rest (specs : DP.DroneSpecs) :
    DPN.calculateDragN specs DPN.Vec3F.zero DPN.Vec3F.zero = DPN.Vec3F.zero := by
  norm_num [DPN.calculateDragN, DPN.Vec3F.zero, DPN.Vec3F.sub, DPN.fsub,
    DPN.Vec3F.length, DPN.fmul, DPN.fadd, DPN.fsqrt, Real.sqrt_zero, DPN.flt]

/-- Rotating the body-up vector by the identity orientation (NaN model). -/
theorem applyQuaternionN_id :
    (DPN.Vec3F.mk (some 0) (some 1) (some 0)).applyQuaternion
      DPN.QuatF.identity = ⟨some 0, some 1, some 0⟩ := by
  norm_num [DPN.Vec3F.applyQuaternion, DPN.QuatF.identity, DPN.fmul,
    DPN.fadd, DPN.fsub]

/-- Integrated velocity for the NaN counterexample state (NaN only in
position.y, wind disabled, zero throttle): free fall, all finite. -/
theorem stepNNewVelocity_c1 :
    DPN.stepNNewVelocity DP.DEFAULT_DRONE_SPECS DP.DEFAULT_WIND_CONFIG 0
      ⟨⟨some 0, none, some 0⟩, DPN.Vec3F.zero, DPN.QuatF.identity,
        DPN.Vec3F.zero⟩ 0 (1/60) 0 = ⟨some 0, some (-(9.81/60)), some 0⟩ := by
  simp only [DPN.stepNNewVelocity, DPN.stepNTotalForce,
    windVelocityN_disabled DP.DEFAULT_WIND_CONFIG rfl, dragN_of_rest,
    applyQuaternionN_id]
  norm_num [DPN.Vec3F.add, DPN.Vec3F.multiplyScalar, DPN.Vec3F.zero,
    DPN.fadd, DPN.fmul, DP.calculateThrust, DP.DEFAULT_DRONE_SPECS,
    DP.GRAVITY, DP.dtClamped, min_def, max_def, DPN.Vec3F.mk.injEq]

/-- Integrated position for the NaN counterexample state: the NaN stays in
the y component only. -/
theorem stepNNewPosition_c1 :
    DPN.stepNNewPosition DP.DEFAULT_DRONE_SPECS DP.DEFAULT_WIND_CONFIG 0
      ⟨⟨some 0, none, some 0⟩, DPN.Vec3F.zero, DPN.QuatF.identity,
        DPN.Vec3F.zero⟩ 0 (1/60) 0 = ⟨some 0, none, some 0⟩ := by
  unfold DPN.stepNNewPosition
  rw [stepNNewVelocity_c1]
  norm_num [DPN.Vec3F.add, DPN.Vec3F.multiplyScalar, DPN.fadd, DPN.fmul,
    fadd_none_left, DP.dtClamped, min_def, DPN.Vec3F.mk.injEq]

/-- Angular velocity for the NaN counterexample state stays zero. -/
theorem stepNNewAngularVelocity_c1 :
    DPN.stepNNewAngularVelocity DP.DEFAULT_DRONE_SPECS
      ⟨⟨some 0, none, some 0⟩, DPN.Vec3F.zero, DPN.QuatF.identity,
        DPN.Vec3F.zero⟩ 0 0 0 (1/60) = DPN.Vec3F.zero := by
  norm_num [DPN.stepNNewAngularVelocity, DPN.stepNAngularAccel,
    DPN.Vec3F.zero, DPN.Vec3F.sub, DPN.Vec3F.add, DPN.Vec3F.multiplyScalar,
    DPN.Vec3F.length, DPN.fsub, DPN.fadd, DPN.fmul, DPN.fsqrt,
    Real.sqrt_zero, DPN.flt, DP.maxAccel, DP.maxAngularSpeed,
    DP.inertiaFactor, DP.DEFAULT_DRONE_SPECS, DP.dtClamped, min_def,
    DPN.Vec3F.mk.injEq]

/-- Orientation for the NaN counterexample state is unchanged. -/
theorem stepNNewQuaternion_c1 :
    DPN.stepNNewQuaternion DP.DEFAULT_DRONE_SPECS
      ⟨⟨some 0, none, some 0⟩, DPN.Vec3F.zero, DPN.QuatF.identity,
        DPN.Vec3F.zero⟩ 0 0 0 (1/60) = DPN.QuatF.identity := by
  unfold DPN.stepNNewQuaternion
  rw [stepNNewAngularVelocity_c1]
  norm_num [DPN.Vec3F.zero, DPN.Vec3F.length, DPN.fadd, DPN.fmul, DPN.fsqrt,
    Real.sqrt_zero, DPN.flt]

/-- C1 counterexample: with a NaN confined to position.y (all other state
components finite, wind disabled), the step's NaN check — which reads
only position.x, velocity.x and quaternion.x — does not fire: the
returned state carries the NaN in position.y and is not the documented
initial state, contradicting the claim for this input. -/
theorem stepN_nan_escape :
    (DPN.stepN DP.DEFAULT_DRONE_SPECS DP.DEFAULT_WIND_CONFIG 0
      ⟨⟨some 0, none, some 0⟩, DPN.Vec3F.zero, DPN.QuatF.identity,
        DPN.Vec3F.zero⟩ 0 0 0 0 (1/60) 0).position.y = none ∧
    DPN.stepN DP.DEFAULT_DRONE_SPECS DP.DEFAULT_WIND_CONFIG 0
      ⟨⟨some 0, none, some 0⟩, DPN.Vec3F.zero, DPN.QuatF.identity,
        DPN.Vec3F.zero⟩ 0 0 0 0 (1/60) 0 ≠ DPN.initialStateN := by
  have hres : DPN.stepN DP.DEFAULT_DRONE_SPECS DP.DEFAULT_WIND_CONFIG 0
      ⟨⟨some 0, none, some 0⟩, DPN.Vec3F.zero, DPN.QuatF.identity,
        DPN.Vec3F.zero⟩ 0 0 0 0 (1/60) 0 =
      ⟨⟨some 0, none, some 0⟩, ⟨some 0, some (-(9.81/60)), some 0⟩,
        DPN.QuatF.identity, DPN.Vec3F.zero⟩ := by
    have hg : DPN.flt (DPN.stepNNewPosition DP.DEFAULT_DRONE_SPECS
        DP.DEFAULT_WIND_CONFIG 0
        ⟨⟨some 0, none, some 0⟩, DPN.Vec3F.zero, DPN.QuatF.identity,
          DPN.Vec3F.zero⟩ 0 (1/60) 0).y (some DP.groundHeight) = False := by
      rw [stepNNewPosition_c1]; exact flt_none_left _
    simp only [DPN.stepN, hg, if_false]
    simp only [stepNNewPosition_c1, stepNNewVelocity_c1,
      stepNNewAngularVelocity_c1, stepNNewQuaternion_c1]
    simp [DPN.QuatF.identity]
  constructor
  · rw [hres]
  · rw [hres]
    intro heq
    have := congrArg (fun s => s.position.y) heq
    simp [DPN.initialStateN] at this
